import Mathlib

/-!
Shallow embedding of the market-context resolution engine of the
finance-news-assistant repository (backend/app/services/market.py and the
Alpha Vantage adapter it uses), together with theorems settling the
specification's claims about it.

Modelling conventions:
* Python strings are sequences of code points, modelled as `List Nat`
  (`PyStr`).  `str.strip` / `str.upper` / `str.replace` are modelled on the
  ASCII range, which is the range tickers and the engine's string constants
  live in.
* Python floats are modelled as `Fl`: an exact rational, or one of the IEEE
  special values NaN / +Inf / -Inf.  Arithmetic on `Fl` follows IEEE/numpy
  semantics for the operations the engine performs (pandas/numpy division by
  zero yields a signed infinity, any operation on NaN yields NaN, comparisons
  with NaN are false).  Exact rational arithmetic stands in for the finite
  float arithmetic.
* pandas `std` involves a square root, which does not stay inside ℚ; the
  population-standard-deviation kernel is therefore an opaque field of the
  environment (`Env.std`).  None of the claims depend on its numeric value.
* All provider calls (yfinance downloads, Alpha Vantage fetches, the offline
  S&P 500 directory) are oracles packed into `Env`; module-level mutable
  caches and call counters are threaded explicitly through `St`.
* Python dict gets/sets are modelled as function update; `time.time()` is the
  explicit argument `now`.
-/

/-! ### Python strings -/

/-- A Python string, as its list of code points. -/
abbrev PyStr := List Nat

/-- Code points of a Lean string literal, used for the engine's constants. -/
def str2py (s : String) : PyStr := s.data.map Char.toNat

/-- ASCII whitespace, the characters `str.strip` removes for the inputs the
engine sees. -/
def isSpaceN (n : Nat) : Bool :=
  n = 32 || n = 9 || n = 10 || n = 13 || n = 11 || n = 12

/-- Python `str.strip()` (ASCII model): drop whitespace from both ends. -/
def pyStrip (s : PyStr) : PyStr := List.rdropWhile isSpaceN (s.dropWhile isSpaceN)

/-- Uppercasing of one code point, ASCII model of `str.upper`. -/
def upChar (n : Nat) : Nat := if 97 ≤ n ∧ n ≤ 122 then n - 32 else n

/-- Python `str.upper()` (ASCII model). -/
def pyUpper (s : PyStr) : PyStr := s.map upChar

/-- One code point of `str.replace(".", "-")`: 46 is `.`, 45 is `-`. -/
def repChar (n : Nat) : Nat := if n = 46 then 45 else n

/-- Python `s.replace(".", "-")`, a character-wise map for 1-char patterns. -/
def pyReplaceDot (s : PyStr) : PyStr := s.map repChar

/-- Python `str.lower()` (ASCII model). -/
def pyLower (s : PyStr) : PyStr :=
  s.map (fun n => if 65 ≤ n ∧ n ≤ 90 then n + 32 else n)

/-- `_normalize_ticker` (market.py:32): strip, uppercase, and replace `.`
with `-`.  The `ticker or ""` None-guard lives at the call sites, which pass
an `Option PyStr`. -/
def normalize_ticker (t : PyStr) : PyStr := pyReplaceDot (pyUpper (pyStrip t))

/-! Helper lemmas for idempotence of `normalize_ticker`. -/

/-- The composite per-character action of `normalize_ticker` after the
strip. -/
def ntChar (n : Nat) : Nat := repChar (upChar n)

lemma ntChar_idem (n : Nat) : ntChar (ntChar n) = ntChar n := by
  simp only [ntChar, upChar, repChar]
  split_ifs <;> omega

lemma isSpaceN_ntChar (n : Nat) : isSpaceN (ntChar n) = isSpaceN n := by
  simp only [ntChar, upChar, repChar, isSpaceN]
  split_ifs <;>
    first
      | rfl
      | (rw [Bool.eq_iff_iff]; simp only [Bool.or_eq_true, decide_eq_true_eq]; omega)

lemma dropWhile_map_of_pres (f : Nat → Nat) (p : Nat → Bool)
    (h : ∀ n, p (f n) = p n) (l : List Nat) :
    (l.map f).dropWhile p = (l.dropWhile p).map f := by
  induction l with
  | nil => simp
  | cons a as ih =>
    simp only [List.map_cons, List.dropWhile_cons, h a]
    split <;> simp [ih]

lemma rdropWhile_map_of_pres (f : Nat → Nat) (p : Nat → Bool)
    (h : ∀ n, p (f n) = p n) (l : List Nat) :
    List.rdropWhile p (l.map f) = (List.rdropWhile p l).map f := by
  simp only [List.rdropWhile, ← List.map_reverse, dropWhile_map_of_pres f p h]

lemma pyStrip_map_ntChar (l : PyStr) :
    pyStrip (l.map ntChar) = (pyStrip l).map ntChar := by
  simp only [pyStrip]
  rw [dropWhile_map_of_pres ntChar isSpaceN isSpaceN_ntChar l,
    rdropWhile_map_of_pres ntChar isSpaceN isSpaceN_ntChar]

lemma dropWhile_eq_self_of_ne_nil_head (p : Nat → Bool) (l : List Nat)
    (h : ∀ a as, l = a :: as → p a = false) : l.dropWhile p = l := by
  cases l with
  | nil => simp
  | cons a as => simp [List.dropWhile_cons, h a as rfl]

lemma head_of_dropWhile (p : Nat → Bool) (l : List Nat) (a : Nat) (as : List Nat)
    (h : l.dropWhile p = a :: as) : p a = false := by
  induction l with
  | nil => simp at h
  | cons b bs ih =>
    by_cases hb : p b
    · exact ih (by simpa [List.dropWhile_cons, hb] using h)
    · simp only [List.dropWhile_cons, hb] at h
      cases h
      simpa using hb

lemma pyStrip_idem (l : PyStr) : pyStrip (pyStrip l) = pyStrip l := by
  unfold pyStrip
  have h1 : List.dropWhile isSpaceN (List.rdropWhile isSpaceN (l.dropWhile isSpaceN))
      = List.rdropWhile isSpaceN (l.dropWhile isSpaceN) := by
    apply dropWhile_eq_self_of_ne_nil_head
    intro a as h
    obtain ⟨t, ht⟩ := List.rdropWhile_prefix isSpaceN (l.dropWhile isSpaceN)
    rw [h] at ht
    exact head_of_dropWhile isSpaceN l a (as ++ t) ht.symm
  rw [h1, List.rdropWhile_idempotent]

/-- C9: `_normalize_ticker` is idempotent: stripping, ASCII-uppercasing and
replacing `.` by `-` a second time changes nothing. -/
theorem normalize_ticker_idem (t : PyStr) :
    normalize_ticker (normalize_ticker t) = normalize_ticker t := by
  have hmm : ∀ s : PyStr, normalize_ticker s = (pyStrip s).map ntChar := by
    intro s
    simp [normalize_ticker, pyUpper, pyReplaceDot, List.map_map, ntChar, Function.comp]
  simp only [hmm]
  rw [pyStrip_map_ntChar, pyStrip_idem, List.map_map]
  apply List.map_congr_left
  intro a _
  exact ntChar_idem a

/-! ### Python/numpy floats with IEEE special values -/

/-- A Python/numpy float: an exact rational, or NaN / +Inf / -Inf. -/
inductive Fl where
  | fin (q : ℚ)
  | nan
  | inf
  | ninf
deriving DecidableEq

/-- `pd.isna` on a scalar float: true exactly for NaN. -/
def flIsNa : Fl → Bool
  | Fl.nan => true
  | _ => false

/-- IEEE negation. -/
def flNeg : Fl → Fl
  | Fl.fin q => Fl.fin (-q)
  | Fl.nan => Fl.nan
  | Fl.inf => Fl.ninf
  | Fl.ninf => Fl.inf

/-- IEEE addition (finite part exact). -/
def flAdd : Fl → Fl → Fl
  | Fl.nan, _ => Fl.nan
  | _, Fl.nan => Fl.nan
  | Fl.inf, Fl.ninf => Fl.nan
  | Fl.ninf, Fl.inf => Fl.nan
  | Fl.inf, _ => Fl.inf
  | _, Fl.inf => Fl.inf
  | Fl.ninf, _ => Fl.ninf
  | _, Fl.ninf => Fl.ninf
  | Fl.fin a, Fl.fin b => Fl.fin (a + b)

/-- IEEE subtraction. -/
def flSub (a b : Fl) : Fl := flAdd a (flNeg b)

/-- IEEE multiplication (0 × ∞ = NaN). -/
def flMul : Fl → Fl → Fl
  | Fl.nan, _ => Fl.nan
  | _, Fl.nan => Fl.nan
  | Fl.fin a, Fl.fin b => Fl.fin (a * b)
  | Fl.fin a, Fl.inf => if a = 0 then Fl.nan else if 0 < a then Fl.inf else Fl.ninf
  | Fl.inf, Fl.fin a => if a = 0 then Fl.nan else if 0 < a then Fl.inf else Fl.ninf
  | Fl.fin a, Fl.ninf => if a = 0 then Fl.nan else if 0 < a then Fl.ninf else Fl.inf
  | Fl.ninf, Fl.fin a => if a = 0 then Fl.nan else if 0 < a then Fl.ninf else Fl.inf
  | Fl.inf, Fl.inf => Fl.inf
  | Fl.inf, Fl.ninf => Fl.ninf
  | Fl.ninf, Fl.inf => Fl.ninf
  | Fl.ninf, Fl.ninf => Fl.inf

/-- Division with numpy semantics: finite/0 is a signed infinity, 0/0 and
∞/∞ are NaN.  (The engine's only Python-float division is guarded by a
`prev_close != 0` check, so the x/0 row is never reached there.) -/
def flDiv : Fl → Fl → Fl
  | Fl.nan, _ => Fl.nan
  | _, Fl.nan => Fl.nan
  | Fl.fin a, Fl.fin b =>
      if b = 0 then (if a = 0 then Fl.nan else if 0 < a then Fl.inf else Fl.ninf)
      else Fl.fin (a / b)
  | Fl.fin _, Fl.inf => Fl.fin 0
  | Fl.fin _, Fl.ninf => Fl.fin 0
  | Fl.inf, Fl.fin b => if 0 ≤ b then Fl.inf else Fl.ninf
  | Fl.ninf, Fl.fin b => if 0 ≤ b then Fl.ninf else Fl.inf
  | _, _ => Fl.nan

/-- IEEE strict less-than: false whenever NaN is involved. -/
def flLtB : Fl → Fl → Bool
  | Fl.nan, _ => false
  | _, Fl.nan => false
  | Fl.fin a, Fl.fin b => a < b
  | Fl.fin _, Fl.inf => true
  | Fl.inf, Fl.fin _ => false
  | Fl.ninf, Fl.fin _ => true
  | Fl.fin _, Fl.ninf => false
  | Fl.ninf, Fl.inf => true
  | Fl.inf, Fl.ninf => false
  | Fl.inf, Fl.inf => false
  | Fl.ninf, Fl.ninf => false

/-- IEEE less-or-equal: false whenever NaN is involved. -/
def flLeB : Fl → Fl → Bool
  | Fl.nan, _ => false
  | _, Fl.nan => false
  | Fl.fin a, Fl.fin b => a ≤ b
  | Fl.fin _, Fl.inf => true
  | Fl.inf, Fl.fin _ => false
  | Fl.ninf, Fl.fin _ => true
  | Fl.fin _, Fl.ninf => false
  | Fl.ninf, Fl.inf => true
  | Fl.inf, Fl.ninf => false
  | Fl.inf, Fl.inf => true
  | Fl.ninf, Fl.ninf => true

/-- Python truthiness of a float: only 0.0 is falsy (NaN and infinities are
truthy).  This is also the value of the Python comparison `x != 0`. -/
def flTruthy : Fl → Bool
  | Fl.fin q => q ≠ 0
  | _ => true

/-- Python truthiness of a `float | None` value: None and 0.0 are falsy. -/
def optFlTruthy : Option Fl → Bool
  | none => false
  | some f => flTruthy f

/-- Python truthiness of an already-sanitized `float | None` value. -/
def optQTruthy : Option ℚ → Bool
  | none => false
  | some q => q ≠ 0

/-- Python truthiness of a `str | None` value: None and "" are falsy. -/
def optStrTruthy : Option PyStr → Bool
  | none => false
  | some s => !s.isEmpty

/-- `_safe_float` (market.py:245): None for NaN / ±Inf, the value otherwise.
The `float(x)`-raises branch cannot occur for the typed inputs modelled
here. -/
def safe_float : Fl → Option ℚ
  | Fl.fin q => some q
  | _ => none

/-- `_safe_float` applied to a `float | None` (e.g. `info.get(...)`). -/
def safe_float_opt : Option Fl → Option ℚ
  | none => none
  | some f => safe_float f

/-- Remove NaN entries, pandas `Series.dropna` on a float list. -/
def dropnaFl (l : List Fl) : List Fl := l.filter (fun x => !flIsNa x)

/-- Sum of a float list (left fold, as numpy does). -/
def flSum (l : List Fl) : Fl := l.foldl flAdd (Fl.fin 0)

/-- `Series.mean` of a list (sum / length; NaN for the empty list). -/
def flMeanList (l : List Fl) : Fl :=
  if l.length = 0 then Fl.nan else flDiv (flSum l) (Fl.fin l.length)

/-- `Series.max` (skipna): NaN entries skipped, NaN for the empty series. -/
def flMaxList (l : List Fl) : Fl :=
  match dropnaFl l with
  | [] => Fl.nan
  | x :: xs => xs.foldl (fun a b => if flLtB a b then b else a) x

/-- `Series.min` (skipna). -/
def flMinList (l : List Fl) : Fl :=
  match dropnaFl l with
  | [] => Fl.nan
  | x :: xs => xs.foldl (fun a b => if flLtB b a then b else a) x

/-- Stable ascending insertion into a sorted float list. -/
def flInsert (x : Fl) : List Fl → List Fl
  | [] => [x]
  | y :: ys => if flLeB y x then y :: flInsert x ys else x :: y :: ys

/-- Ascending sort of a (NaN-free) float list, for quantiles. -/
def flSorted : List Fl → List Fl
  | [] => []
  | x :: xs => flInsert x (flSorted xs)

/-- `Series.quantile` with linear interpolation: virtual index
q·(n−1) = i + γ, result x[i] + γ·(x[i+1] − x[i]). -/
def flQuantile (l : List Fl) (q : ℚ) : Fl :=
  match flSorted l with
  | [] => Fl.nan
  | s =>
    let n := s.length
    let h : ℚ := q * ((n : ℚ) - 1)
    let i : ℕ := (Int.toNat ⌊h⌋)
    let g : ℚ := h - (i : ℚ)
    let a := s.getD i Fl.nan
    let b := s.getD (i + 1) a
    flAdd a (flMul (Fl.fin g) (flSub b a))

/-- `Series.clip(lower, upper)` on one value. -/
def flClip (lo hi x : Fl) : Fl :=
  if flLtB x lo then lo else if flLtB hi x then hi else x

/-- Last element of a float list (`iloc[-1]`); NaN default is unreachable at
the guarded call sites. -/
def flLast (l : List Fl) : Fl := l.getLastD Fl.nan

/-- Second-to-last element (`iloc[-2]`). -/
def flLast2 (l : List Fl) : Fl := l.dropLast.getLastD Fl.nan

/-- pandas `Series.tail(n)`: the last n entries. -/
def tailN {α : Type} (n : ℕ) (l : List α) : List α := l.drop (l.length - n)

/-- pandas `Series.pct_change()` before `dropna`: the first (NaN) entry is
produced by `shift` and immediately dropped by the callers, so only the
ratios are materialized here; each is (xᵢ − xᵢ₋₁)/xᵢ₋₁ in float
arithmetic. -/
def pct_change : List Fl → List Fl
  | [] => []
  | [_] => []
  | a :: b :: rest => flDiv (flSub b a) a :: pct_change (b :: rest)

/-- One-step differences, `Series.diff()` without the leading NaN. -/
def flDiffs : List Fl → List Fl
  | [] => []
  | [_] => []
  | a :: b :: rest => flSub b a :: flDiffs (b :: rest)

/-- `((close[-1] - close[-2]) / close[-2]) * 100` on a close list, the 1-day
percent move used for all benchmark ETFs. -/
def pctLast2 (l : List Fl) : Fl :=
  flMul (flDiv (flSub (flLast l) (flLast2 l)) (flLast2 l)) (Fl.fin 100)

/-! ### Frames, snapshots, environment and module state -/

/-- One row of an OHLCV dataframe; only the columns the engine reads are
modelled (dates are day ordinals, already parsed). -/
structure Bar where
  date : ℕ
  close : Fl
  volume : Option Fl
deriving DecidableEq

/-- One `{date, close}` point of a close-only series / of `price_series`. -/
structure ClosePt where
  date : ℕ
  close : Fl
deriving DecidableEq

/-- An OHLCV dataframe: its rows plus whether a Volume column is present
(`"Volume" in df.columns`); `"Close" in df.columns` holds whenever the frame
is nonempty. -/
structure Frame where
  rows : List Bar
  hasVol : Bool
deriving DecidableEq

/-- `pd.DataFrame()`: the empty frame with no columns. -/
def emptyFrame : Frame := { rows := [], hasVol := false }

/-- `df is not None and not df.empty and "Close" in df.columns`. -/
def frameOk (f : Frame) : Bool := !f.rows.isEmpty

/-- The fields read from `yf.Ticker(...).info`. -/
structure TickerInfo where
  marketCap : Option Fl := none
  sector : Option PyStr := none
  industry : Option PyStr := none
  beta : Option Fl := none
  trailingPE : Option Fl := none
deriving DecidableEq

/-- The empty `{}` info dict. -/
def emptyInfo : TickerInfo := {}

/-- The `MarketResult` dataclass (market.py:200).  Scalar floats that the
engine always routes through `_safe_float` are `Option ℚ`; `current_price`
can receive a raw provider close in the degraded branch, so it stays
`Option Fl`; `price_series` closes are raw floats.  `pe_val` models the
`pe_ratio` field. -/
structure MarketResult where
  price_series : List ClosePt := []
  day_move_pct : Option ℚ := none
  vol_20d : Option ℚ := none
  move_zscore : Option ℚ := none
  data_source : Option PyStr := none
  last_close_date : Option ℕ := none
  price_series_days : Option ℕ := none
  current_price : Option Fl := none
  week_52_high : Option ℚ := none
  week_52_low : Option ℚ := none
  pct_from_52w_high : Option ℚ := none
  pct_from_52w_low : Option ℚ := none
  market_cap : Option ℚ := none
  sector : Option PyStr := none
  industry : Option PyStr := none
  beta : Option ℚ := none
  pe_val : Option ℚ := none
  sector_performance_today : Option ℚ := none
  sp500_performance_today : Option ℚ := none
  relative_strength : Option ℚ := none
  industry_benchmark : Option PyStr := none
  industry_performance_today : Option ℚ := none
  relative_strength_vs_industry : Option ℚ := none
  peer_group_label : Option PyStr := none
  peer_group_size : Option ℕ := none
  peer_avg_move_today : Option ℚ := none
  relative_strength_vs_peers : Option ℚ := none
  rsi_14d : Option ℚ := none
  ma_50d : Option ℚ := none
  ma_200d : Option ℚ := none
  unusual_volume : Bool := false
  near_52w_high : Bool := false
  volatility_regime : Option PyStr := none
  average_volume_20d : Option ℚ := none
  current_volume : Option ℚ := none
deriving DecidableEq

/-- Outcome of one `yf.download` call: a frame, or a raised exception with
its message. -/
inductive DlOut where
  | ok (f : Frame)
  | err (msg : PyStr)
deriving DecidableEq

/-- The world outside the engine: provider responses, the offline S&P 500
directory, and the irrational `std` kernel. -/
structure Env where
  /-- `yf.download(t, period, interval="1d")` for the single-shot call
  sites (1y full path, 1mo light path, 5d benchmark path). -/
  yf : PyStr → PyStr → DlOut
  /-- Per-ticker response sequence for the retrying
  `_download_with_fallbacks` loop, indexed by attempt number and given the
  (period, interval) of that attempt. -/
  dlseq : PyStr → ℕ → PyStr × PyStr → DlOut
  /-- `fetch_daily_ohlc_1y` rows (Alpha Vantage OHLCV fallback). -/
  avOhlc : PyStr → List Bar
  /-- `fetch_daily_series_1mo` / `fetch_daily_series_compact` points. -/
  av1mo : PyStr → List ClosePt
  /-- `lookup_sp500_profile`: offline (sector, industry). -/
  sp500Profile : PyStr → Option PyStr × Option PyStr
  /-- `load_sp500()` constituent tickers. -/
  sp500List : List PyStr
  /-- `yf.Ticker(t).info` (only reachable when profile calls are enabled). -/
  yfInfo : PyStr → TickerInfo
  /-- Population standard deviation (`Series.std(ddof=0)`); kept opaque
  because square roots leave ℚ. -/
  std : List Fl → Fl

/-- The module-level mutable state: the three caches, the provider call
counters, and a log of full-snapshot computations (one entry per execution
of the cache-miss body of `fetch_market_context`, used to count
recomputations). -/
structure St where
  mcache : PyStr → Option (ℚ × MarketResult)
  bcache : PyStr → Option (ℚ × Option ℚ)
  icache : PyStr → Option (ℚ × TickerInfo)
  yfCalls : ℕ
  avCalls : ℕ
  runs : List PyStr

/-- `_CACHE_TTL_SECONDS` (24 hours). -/
def CACHE_TTL : ℚ := 60 * 60 * 24

/-- `_INFO_CACHE_TTL_SECONDS` (1 week). -/
def INFO_TTL : ℚ := 60 * 60 * 24 * 7

/-- `_BENCH_CACHE_TTL_SECONDS` (6 hours). -/
def BENCH_TTL : ℚ := 60 * 60 * 6

/-- `_DEFAULT_USE_YF_INFO` (market.py:25). -/
def DEFAULT_USE_YF_INFO : Bool := false

/-- `_cache_get` (market.py:39): miss on absent key; a stale entry is popped
(lazy eviction) and reported as a miss; otherwise the stored value is
returned.  Returns the possibly-updated dict alongside the result. -/
def cache_get (m : PyStr → Option (ℚ × MarketResult)) (now : ℚ) (t : PyStr) :
    Option MarketResult × (PyStr → Option (ℚ × MarketResult)) :=
  match m t with
  | none => (none, m)
  | some (ts, v) =>
      if now - ts > CACHE_TTL then (none, fun k => if k = t then none else m k)
      else (some v, m)

/-- `_cache_set` (market.py:51). -/
def cache_set (m : PyStr → Option (ℚ × MarketResult)) (now : ℚ) (t : PyStr)
    (v : MarketResult) : PyStr → Option (ℚ × MarketResult) :=
  fun k => if k = t then some (now, v) else m k

/-- `_bench_cache_get` (market.py:55): same TTL discipline as `_cache_get`;
a stored value of None is returned as None and is therefore observationally
identical to a miss. -/
def bench_cache_get (m : PyStr → Option (ℚ × Option ℚ)) (now : ℚ) (k0 : PyStr) :
    Option ℚ × (PyStr → Option (ℚ × Option ℚ)) :=
  match m k0 with
  | none => (none, m)
  | some (ts, v) =>
      if now - ts > BENCH_TTL then (none, fun k => if k = k0 then none else m k)
      else (v, m)

/-- `_bench_cache_set` (market.py:67): the stored value may be None. -/
def bench_cache_set (m : PyStr → Option (ℚ × Option ℚ)) (now : ℚ) (k0 : PyStr)
    (v : Option ℚ) : PyStr → Option (ℚ × Option ℚ) :=
  fun k => if k = k0 then some (now, v) else m k

/-- `_get_ticker_info` (market.py:296): fresh cached info is returned as-is;
otherwise, with network profile calls disabled (the only configuration any
caller uses), the empty dict is returned and nothing is cached.  With the
flag on, the network info is fetched and cached. -/
def get_ticker_info (env : Env) (st : St) (now : ℚ) (allow : Bool) (t : PyStr) :
    TickerInfo × St :=
  match st.icache t with
  | some (ts, v) =>
      if now - ts ≤ INFO_TTL then (v, st)
      else if allow then
        let i := env.yfInfo t
        (i, { st with icache := fun k => if k = t then some (now, i) else st.icache k })
      else (emptyInfo, st)
  | none =>
      if allow then
        let i := env.yfInfo t
        (i, { st with icache := fun k => if k = t then some (now, i) else st.icache k })
      else (emptyInfo, st)

/-! ### String constants of the engine -/

def strYf : PyStr := str2py "yfinance"
def strAv : PyStr := str2py "alpha_vantage"
def strSPY : PyStr := str2py "SPY"
def per1y : PyStr := str2py "1y"
def per1mo : PyStr := str2py "1mo"
def per3mo : PyStr := str2py "3mo"
def per6mo : PyStr := str2py "6mo"
def per5d : PyStr := str2py "5d"
def int1d : PyStr := str2py "1d"
def strIndustryPeers : PyStr := str2py "Industry peers"
def strSectorPeers : PyStr := str2py "Sector peers"
def strLow : PyStr := str2py "low"
def strHigh : PyStr := str2py "high"
def strNormal : PyStr := str2py "normal"

/-- `_BAD_PROFILE_VALUES` (market.py:257), already lowercase. -/
def BAD_PROFILE_VALUES : List PyStr :=
  [str2py "inc", str2py "inc.", str2py "incorporated", str2py "corp",
   str2py "corp.", str2py "corporation", str2py "ltd", str2py "ltd.",
   str2py "limited", str2py "plc", str2py "co", str2py "co.",
   str2py "company", str2py "group", str2py "holdings", str2py "holding"]

/-! ### Frame plumbing -/

/-- Stable insertion of a bar into a date-sorted list. -/
def insertBar (b : Bar) : List Bar → List Bar
  | [] => [b]
  | c :: cs => if c.date ≤ b.date then c :: insertBar b cs else b :: c :: cs

/-- `sort_index()` on rows. -/
def sortBars : List Bar → List Bar
  | [] => []
  | b :: bs => insertBar b (sortBars bs)

/-- `_coerce_ohlcv_df` (market.py:156): empty in, empty frame out; otherwise
drop rows whose Close is NaN (`dropna(subset=["Close"])`) and sort by the
datetime index.  Dates are already parsed, and the single-level column model
makes the MultiIndex flattening a no-op. -/
def coerce_ohlcv_df (f : Frame) : Frame :=
  if f.rows.isEmpty then emptyFrame
  else { rows := sortBars (f.rows.filter (fun r => !flIsNa r.close)), hasVol := f.hasVol }

/-- `_df_from_alpha_vantage_ohlc` (market.py:121): empty list gives the
empty frame; otherwise rows are indexed by date, sorted, and rows without a
parsable Close are dropped; the Volume column is always present in the
adapter's row dicts. -/
def df_from_alpha_vantage_ohlc (points : List Bar) : Frame :=
  if points.isEmpty then emptyFrame
  else { rows := sortBars (points.filter (fun r => !flIsNa r.close)), hasVol := true }

/-- Close column of a frame, with its dates. -/
def frameCloses (f : Frame) : List ClosePt := f.rows.map (fun r => ⟨r.date, r.close⟩)

/-- `df["Volume"].dropna()`: missing and NaN entries removed. -/
def frameVolumes (f : Frame) : List Fl :=
  (f.rows.filterMap (fun r => r.volume)).filter (fun v => !flIsNa v)

/-- `Series.dropna` on a dated close series. -/
def dropnaCp (l : List ClosePt) : List ClosePt := l.filter (fun p => !flIsNa p.close)

/-- `_winsorize_series` (market.py:182) on a dated close series (pandas
clips the values and keeps the index): drop NaNs; compute the 1%/99%
quantiles of the values; if either is NaN, nonpositive, or they are not
strictly ordered, return the series unchanged; otherwise clip every value
into [lo, hi]. -/
def winsorize_series (l : List ClosePt) : List ClosePt :=
  let s := dropnaCp l
  if s.isEmpty then s
  else
    let lo := flQuantile (s.map (fun p => p.close)) (1 / 100)
    let hi := flQuantile (s.map (fun p => p.close)) (99 / 100)
    if flIsNa lo || flIsNa hi || flLeB lo (Fl.fin 0) || flLeB hi (Fl.fin 0)
        || flLeB hi lo then s
    else s.map (fun p => ⟨p.date, flClip lo hi p.close⟩)

/-- Number of whitespace-separated tokens, `len(v.split())`. -/
def wordCount (s : PyStr) : ℕ :=
  ((s.splitOnP isSpaceN).filter (fun w => !w.isEmpty)).length

/-- `_clean_profile_str` (market.py:277): None/empty is rejected; the value
is stripped; corporate-suffix tokens are rejected; a single token of at most
4 characters is rejected. -/
def clean_profile_str (s : Option PyStr) : Option PyStr :=
  match s with
  | none => none
  | some s0 =>
      if s0.isEmpty then none
      else
        let v := pyStrip s0
        if v.isEmpty then none
        else if BAD_PROFILE_VALUES.contains (pyLower v) then none
        else if wordCount v = 1 ∧ v.length ≤ 4 then none
        else some v

/-- `_calculate_rsi` (market.py:323): needs period+1 prices; gains/losses
are the positive/negative parts of the one-step deltas (the leading NaN of
`diff()` becomes 0 under `where`); `rolling(period).mean()` at the last
position is the mean of the last `period` entries; rs = gain/loss (numpy
division, so 0 loss gives +Inf and rsi 100); the result is sanitized by
`_safe_float`. -/
def calculate_rsi (prices : List Fl) (period : ℕ) : Option ℚ :=
  if prices.length < period + 1 then none
  else
    let deltas := flDiffs prices
    let gains := Fl.fin 0 :: deltas.map (fun d => if flLtB (Fl.fin 0) d then d else Fl.fin 0)
    let losses := Fl.fin 0 :: deltas.map (fun d => flNeg (if flLtB d (Fl.fin 0) then d else Fl.fin 0))
    let gainAvg := flMeanList (tailN period gains)
    let lossAvg := flMeanList (tailN period losses)
    let rs := flDiv gainAvg lossAvg
    safe_float (flSub (Fl.fin 100) (flDiv (Fl.fin 100) (flAdd (Fl.fin 1) rs)))

/-- Python `needle in hay` on strings: prefix test at each suffix. -/
def isPre : PyStr → PyStr → Bool
  | [], _ => true
  | _ :: _, [] => false
  | a :: as, b :: bs => a = b && isPre as bs

/-- Python substring containment `needle in hay`. -/
def listInfixOf (needle : PyStr) : PyStr → Bool
  | [] => needle.isEmpty
  | b :: bs => isPre needle (b :: bs) || listInfixOf needle bs

/-! ### The retrying download cascade (`_download_with_fallbacks`) -/

/-- The rate-limit signatures matched against `str(e).lower()`
(market.py:106). -/
def is_rate_limited (msg : PyStr) : Bool :=
  let m := pyLower msg
  listInfixOf (str2py "yfratelimiterror") m
    || listInfixOf (str2py "rate limit") m
    || listInfixOf (str2py "ratelimit") m
    || listInfixOf (str2py "too many requests") m
    || listInfixOf (str2py "too many request") m
    || listInfixOf (str2py "http 429") m

/-- The four progressively wider windows (market.py:78). -/
def dlAttempts : List (PyStr × PyStr) :=
  [(per1mo, int1d), (per3mo, int1d), (per6mo, int1d), (per1y, int1d)]

/-- Loop bookkeeping: number of calls issued so far and the `last_df`
variable. -/
structure DlState where
  k : ℕ
  lastDf : Option Frame

/-- One iteration of the inner `for _ in range(2)` body: a successful call
updates `last_df` and early-returns when the frame is usable; an exception
classified rate-limited aborts everything (third component true); any other
exception just continues. -/
def dlOnce (resp : ℕ → PyStr × PyStr → DlOut) (args : PyStr × PyStr) (s : DlState) :
    Option Frame × DlState × Bool :=
  match resp s.k args with
  | DlOut.ok df =>
      let s' : DlState := { k := s.k + 1, lastDf := some df }
      if frameOk df then (some df, s', false) else (none, s', false)
  | DlOut.err msg =>
      let s' : DlState := { s with k := s.k + 1 }
      if is_rate_limited msg then (none, s', true) else (none, s', false)

/-- The inner retry loop (up to `tries` attempts in one window). -/
def dlInner (resp : ℕ → PyStr × PyStr → DlOut) (args : PyStr × PyStr) :
    ℕ → DlState → Option Frame × DlState × Bool
  | 0, s => (none, s, false)
  | n + 1, s =>
      match dlOnce resp args s with
      | (some f, s', _) => (some f, s', false)
      | (none, s', true) => (none, s', true)
      | (none, s', false) => dlInner resp args n s'

/-- The outer loop over the widening windows. -/
def dlWindows (resp : ℕ → PyStr × PyStr → DlOut) :
    List (PyStr × PyStr) → DlState → Option Frame × DlState × Bool
  | [], s => (none, s, false)
  | args :: rest, s =>
      match dlInner resp args 2 s with
      | (some f, s', _) => (some f, s', false)
      | (none, s', true) => (none, s', true)
      | (none, s', false) => dlWindows resp rest s'

/-- `_download_with_fallbacks` (market.py:71): widening windows with 2 tries
each; a usable frame is returned at once; a rate-limited exception returns
the empty frame immediately; exhaustion returns `last_df` (or the empty
frame).  The second component counts the calls issued to the primary
provider. -/
def download_with_fallbacks (resp : ℕ → PyStr × PyStr → DlOut) : Frame × ℕ :=
  match dlWindows resp dlAttempts { k := 0, lastDf := none } with
  | (some f, s, _) => (f, s.k)
  | (none, s, true) => (emptyFrame, s.k)
  | (none, s, false) => (s.lastDf.getD emptyFrame, s.k)

/-! ### Benchmark ETF machinery -/

/-- The sector → ETF table (market.py:376). -/
def sector_etfs (sector : PyStr) : Option PyStr :=
  if sector = str2py "Technology" then some (str2py "XLK")
  else if sector = str2py "Health Care" then some (str2py "XLV")
  else if sector = str2py "Healthcare" then some (str2py "XLV")
  else if sector = str2py "Financials" then some (str2py "XLF")
  else if sector = str2py "Financial Services" then some (str2py "XLF")
  else if sector = str2py "Consumer Cyclical" then some (str2py "XLY")
  else if sector = str2py "Consumer Defensive" then some (str2py "XLP")
  else if sector = str2py "Consumer Discretionary" then some (str2py "XLY")
  else if sector = str2py "Consumer Staples" then some (str2py "XLP")
  else if sector = str2py "Industrials" then some (str2py "XLI")
  else if sector = str2py "Energy" then some (str2py "XLE")
  else if sector = str2py "Utilities" then some (str2py "XLU")
  else if sector = str2py "Real Estate" then some (str2py "XLRE")
  else if sector = str2py "Basic Materials" then some (str2py "XLB")
  else if sector = str2py "Materials" then some (str2py "XLB")
  else if sector = str2py "Communication Services" then some (str2py "XLC")
  else if sector = str2py "Communication" then some (str2py "XLC")
  else none

/-- `any(k in ind for k in keys)`. -/
def anyInfix (keys : List PyStr) (ind : PyStr) : Bool :=
  keys.any (fun k => listInfixOf k ind)

/-- `_industry_benchmark_etf` (market.py:428): keyword rules over the
lowercased industry string, first match wins; no industry match yields no
benchmark (the sector-level fallback returns (None, None) as well). -/
def industry_benchmark_etf (industry sector : Option PyStr) :
    Option PyStr × Option PyStr :=
  if !optStrTruthy industry ∧ !optStrTruthy sector then (none, none)
  else
    let ind := pyLower (industry.getD [])
    if anyInfix [str2py "semiconductor", str2py "semi", str2py "chip"] ind then
      (some (str2py "Semiconductors (SOXX)"), some (str2py "SOXX"))
    else if anyInfix [str2py "consumer electronics", str2py "iphone",
        str2py "smartphone", str2py "wearable"] ind then
      (some (str2py "Consumer Tech (VGT)"), some (str2py "VGT"))
    else if anyInfix [str2py "software", str2py "application", str2py "saas",
        str2py "cloud"] ind then
      (some (str2py "Software (IGV)"), some (str2py "IGV"))
    else if anyInfix [str2py "internet retail", str2py "e-commerce",
        str2py "ecommerce", str2py "online retail"] ind then
      (some (str2py "Online Retail (IBUY)"), some (str2py "IBUY"))
    else if anyInfix [str2py "internet", str2py "e-commerce",
        str2py "online retail", str2py "digital"] ind then
      (some (str2py "Internet (FDN)"), some (str2py "FDN"))
    else if anyInfix [str2py "cyber", str2py "security"] ind then
      (some (str2py "Cybersecurity (HACK)"), some (str2py "HACK"))
    else if anyInfix [str2py "biotech", str2py "biotechnology"] ind then
      (some (str2py "Biotech (IBB)"), some (str2py "IBB"))
    else if anyInfix [str2py "retail"] ind then
      (some (str2py "Retail (XRT)"), some (str2py "XRT"))
    else if anyInfix [str2py "bank", str2py "banks"] ind then
      (some (str2py "Banks (KBE)"), some (str2py "KBE"))
    else if anyInfix [str2py "oil", str2py "gas", str2py "exploration",
        str2py "drilling", str2py "energy equipment"] ind then
      (some (str2py "Oil & Gas (XOP)"), some (str2py "XOP"))
    else (none, none)

/-- The Alpha Vantage close-only fallback shared by the three benchmark
fetchers: needs at least two points whose last two closes are truthy; the
computed move is cached (possibly as None) and returned; anything else
returns None uncached. -/
def avTailMove (env : Env) (st : St) (now : ℚ) (key : PyStr) : Option ℚ × St :=
  let st1 := { st with avCalls := st.avCalls + 1 }
  let series := env.av1mo key
  if 2 ≤ series.length then
    let prev := ((series.dropLast.getLast?).map (fun p => p.close)).getD Fl.nan
    let cur := ((series.getLast?).map (fun p => p.close)).getD Fl.nan
    if flTruthy prev ∧ flTruthy cur then
      let val := safe_float (flMul (flDiv (flSub cur prev) prev) (Fl.fin 100))
      (val, { st1 with bcache := bench_cache_set st1.bcache now key val })
    else (none, st1)
  else (none, st1)

/-- `_fetch_sp500_performance` (market.py:341): benchmark cache, then a
single 5d SPY download (a usable ≥2-row frame caches and returns the move,
which may be None after sanitization), then the Alpha Vantage close-only
fallback. -/
def fetch_sp500_performance (env : Env) (st : St) (now : ℚ) : Option ℚ × St :=
  let gp := bench_cache_get st.bcache now strSPY
  let st0 := { st with bcache := gp.2 }
  match gp.1 with
  | some v => (some v, st0)
  | none =>
      let st1 := { st0 with yfCalls := st0.yfCalls + 1 }
      match env.yf strSPY per5d with
      | DlOut.ok f =>
          if frameOk f ∧ 2 ≤ f.rows.length then
            let val := safe_float (pctLast2 (f.rows.map (fun r => r.close)))
            (val, { st1 with bcache := bench_cache_set st1.bcache now strSPY val })
          else avTailMove env st1 now strSPY
      | DlOut.err _ => avTailMove env st1 now strSPY

/-- `_fetch_sector_performance` (market.py:369): None without a sector or a
table match; benchmark cache; the retrying cascade plus `_coerce_ohlcv_df`;
then the Alpha Vantage close-only fallback. -/
def fetch_sector_performance (env : Env) (st : St) (now : ℚ)
    (sector : Option PyStr) : Option ℚ × St :=
  if !optStrTruthy sector then (none, st)
  else
    match sector_etfs (sector.getD []) with
    | none => (none, st)
    | some etf =>
        let gp := bench_cache_get st.bcache now etf
        let st0 := { st with bcache := gp.2 }
        match gp.1 with
        | some v => (some v, st0)
        | none =>
            let dl := download_with_fallbacks (env.dlseq etf)
            let st1 := { st0 with yfCalls := st0.yfCalls + dl.2 }
            let data := coerce_ohlcv_df dl.1
            if frameOk data ∧ 2 ≤ data.rows.length then
              let val := safe_float (pctLast2 (data.rows.map (fun r => r.close)))
              (val, { st1 with bcache := bench_cache_set st1.bcache now etf val })
            else avTailMove env st1 now etf

/-- `_fetch_etf_daily_move` (market.py:487): None for a falsy ETF symbol;
normalize; benchmark cache; a single 5d download; then the Alpha Vantage
close-only fallback. -/
def fetch_etf_daily_move (env : Env) (st : St) (now : ℚ) (etf0 : Option PyStr) :
    Option ℚ × St :=
  if !optStrTruthy etf0 then (none, st)
  else
    let etf := normalize_ticker (etf0.getD [])
    let gp := bench_cache_get st.bcache now etf
    let st0 := { st with bcache := gp.2 }
    match gp.1 with
    | some v => (some v, st0)
    | none =>
        let st1 := { st0 with yfCalls := st0.yfCalls + 1 }
        match env.yf etf per5d with
        | DlOut.ok f =>
            if frameOk f ∧ 2 ≤ f.rows.length then
              let val := safe_float (pctLast2 (f.rows.map (fun r => r.close)))
              (val, { st1 with bcache := bench_cache_set st1.bcache now etf val })
            else avTailMove env st1 now etf
        | DlOut.err _ => avTailMove env st1 now etf

/-! ### Snapshot makers (the record assemblies of fetch_market_context) -/

/-- The all-empty snapshot returned for a falsy ticker (market.py:586), also
the base record of the light path. -/
def empty_result : MarketResult := {}

/-- The degraded snapshot built when no OHLCV frame could be obtained
(market.py:650): the Alpha Vantage close-only series is surfaced raw,
including its last close as `current_price`; all derived metrics are
null. -/
def degraded_no_frame (mc : Option ℚ) (sec ind : Option PyStr)
    (betav pev : Option ℚ) (seriesAv : List ClosePt) : MarketResult :=
  { price_series := seriesAv
    day_move_pct := none
    vol_20d := none
    move_zscore := none
    data_source := if seriesAv.isEmpty then none else some strAv
    last_close_date := (seriesAv.getLast?).map (fun p => p.date)
    price_series_days := some (if seriesAv.isEmpty then 0 else seriesAv.length)
    current_price := (seriesAv.getLast?).map (fun p => p.close)
    market_cap := mc
    sector := sec
    industry := ind
    beta := betav
    pe_val := pev }

/-- The degraded snapshot built when the winsorized series surfaced no
points (market.py:690): like `degraded_no_frame` but keeping the phase
data-source when the fallback series is empty, and without
`current_price`. -/
def degraded_no_series (mc : Option ℚ) (sec ind : Option PyStr)
    (betav pev : Option ℚ) (seriesAv : List ClosePt) (dsPhase : Option PyStr) :
    MarketResult :=
  { price_series := seriesAv
    day_move_pct := none
    vol_20d := none
    move_zscore := none
    data_source := if seriesAv.isEmpty then dsPhase else some strAv
    last_close_date := (seriesAv.getLast?).map (fun p => p.date)
    price_series_days := some (if seriesAv.isEmpty then 0 else seriesAv.length)
    market_cap := mc
    sector := sec
    industry := ind
    beta := betav
    pe_val := pev }

/-- The degraded snapshot built when the return series is empty
(market.py:707): the computed price series is kept, all statistics are
null. -/
def degraded_no_rets (mc : Option ℚ) (sec ind : Option PyStr)
    (betav pev : Option ℚ) (seriesPts : List ClosePt) (ds : Option PyStr) :
    MarketResult :=
  { price_series := seriesPts
    day_move_pct := none
    vol_20d := none
    move_zscore := none
    data_source := ds
    last_close_date := (seriesPts.getLast?).map (fun p => p.date)
    price_series_days := some seriesPts.length
    market_cap := mc
    sector := sec
    industry := ind
    beta := betav
    pe_val := pev }

/-- The "today" move (market.py:722): last two closes, guarded by
`prev_close != 0` (Python float inequality, true for NaN and infinities). -/
def day_move_of (closes : List Fl) : Option ℚ :=
  if 2 ≤ closes.length then
    if flTruthy (flLast2 closes) then
      safe_float (flMul (flDiv (flSub (flLast closes) (flLast2 closes))
        (flLast2 closes)) (Fl.fin 100))
    else none
  else none

/-- The z-score block (market.py:735): guarded by `if vol_20 and vol_20 > 0`
on the raw (pre-sanitization) std value. -/
def zscore_of (rets : List Fl) (v : Fl) : Option ℚ :=
  if flTruthy v ∧ flLtB (Fl.fin 0) v then safe_float (flDiv (flLast rets) v)
  else none

/-- 52-week high/low (market.py:744): extrema of the trailing 252 winsorized
closes. -/
def week52 (closes : List Fl) : Option ℚ × Option ℚ :=
  let closes252 := tailN 252 closes
  (if 0 < closes252.length then safe_float (flMaxList closes252) else none,
   if 0 < closes252.length then safe_float (flMinList closes252) else none)

/-- Percent distance from a 52-week extreme (market.py:753): guarded by
`if current_price and week_52_high:` — Python truthiness on both sanitized
values, so 0.0 is treated like None. -/
def pct_vs (cur ext : Option ℚ) : Option ℚ :=
  match cur, ext with
  | some cp, some e =>
      if cp ≠ 0 ∧ e ≠ 0 then safe_float (Fl.fin ((cp - e) / e * 100)) else none
  | _, _ => none

/-- `near_52w_high` (market.py:755): `if pct_from_52w_high and
pct_from_52w_high >= -5` — Python truthiness makes an exact 0 fail the
test. -/
def near_flag (p : Option ℚ) : Bool :=
  match p with
  | some p => p ≠ 0 ∧ -5 ≤ p
  | none => false

/-- The volatility regime block (market.py:785): `if vol_20d:` is Python
truthiness, so the regime stays None for a 0.0 volatility. -/
def regime_of (v : Option ℚ) : Option PyStr :=
  match v with
  | some v =>
      if v ≠ 0 then
        (if v < 1 then some strLow else if 3 < v then some strHigh else some strNormal)
      else none
  | none => none

/-- A relative-strength field against the sector/industry benchmarks
(market.py:808): `if day_move_pct and benchmark:` — truthiness on both. -/
def rel_str (d b : Option ℚ) : Option ℚ :=
  match d, b with
  | some d, some s => if d ≠ 0 ∧ s ≠ 0 then safe_float (Fl.fin (d - s)) else none
  | _, _ => none

/-- The peers relative-strength field (market.py:816): truthiness on the day
move but `is not None` on the peer average. -/
def rel_str_peers (d p : Option ℚ) : Option ℚ :=
  match d, p with
  | some d, some p => if d ≠ 0 then safe_float (Fl.fin (d - p)) else none
  | _, _ => none

/-- The volume block (market.py:769): (average 20d, current, unusual flag);
needs a Volume column and 20 observations; unusual iff the average is
positive and the current volume exceeds twice the average. -/
def volume_block (df : Frame) : Option ℚ × Option ℚ × Bool :=
  let vols := frameVolumes df
  if df.hasVol ∧ 20 ≤ vols.length then
    let avgVol := flMeanList (tailN 20 vols)
    let curVol := flLast vols
    (safe_float avgVol, safe_float curVol,
      flLtB (Fl.fin 0) avgVol ∧ flLtB (flMul avgVol (Fl.fin 2)) curVol)
  else (none, none, false)

/-- The fully computed snapshot (market.py:721-858), assembled from the
winsorized close series, its returns, the phase metadata and the benchmark
values.  All derived fields are computed by the block helpers above exactly
as in the source, including the Python truthiness guards. -/
def main_result (closesAll : List ClosePt) (rets : List Fl) (seriesPts : List ClosePt)
    (ds : Option PyStr) (mc : Option ℚ) (sec ind : Option PyStr)
    (betav pev : Option ℚ) (vol20fl : Fl) (spPerf secPerf : Option ℚ)
    (indLabel : Option PyStr) (indPerf : Option ℚ) (peerL : Option PyStr)
    (peerN : Option ℕ) (peerAvg : Option ℚ) (df : Frame) : MarketResult :=
  let closes := closesAll.map (fun p => p.close)
  let day_move_pct := day_move_of closes
  let vol_20d := safe_float (flMul vol20fl (Fl.fin 100))
  let move_zscore := zscore_of rets vol20fl
  let w52 := week52 closes
  let current_price_q := safe_float (flLast closes)
  let pct_from_52w_high := pct_vs current_price_q w52.1
  let pct_from_52w_low := pct_vs current_price_q w52.2
  let vb := volume_block df
  { price_series := seriesPts
    day_move_pct := day_move_pct
    vol_20d := vol_20d
    move_zscore := move_zscore
    data_source := ds
    last_close_date := (seriesPts.getLast?).map (fun p => p.date)
    price_series_days := some seriesPts.length
    current_price := current_price_q.map Fl.fin
    week_52_high := w52.1
    week_52_low := w52.2
    pct_from_52w_high := pct_from_52w_high
    pct_from_52w_low := pct_from_52w_low
    market_cap := mc
    sector := sec
    industry := ind
    beta := betav
    pe_val := pev
    sector_performance_today := secPerf
    sp500_performance_today := spPerf
    relative_strength := rel_str day_move_pct secPerf
    industry_benchmark := indLabel
    industry_performance_today := indPerf
    relative_strength_vs_industry := rel_str day_move_pct indPerf
    peer_group_label := peerL
    peer_group_size := peerN
    peer_avg_move_today := peerAvg
    relative_strength_vs_peers := rel_str_peers day_move_pct peerAvg
    rsi_14d := calculate_rsi closes 14
    ma_50d := if 50 ≤ closes.length then safe_float (flMeanList (tailN 50 closes)) else none
    ma_200d := if 200 ≤ closes.length then safe_float (flMeanList (tailN 200 closes)) else none
    unusual_volume := vb.2.2
    near_52w_high := near_flag pct_from_52w_high
    volatility_regime := regime_of vol_20d
    average_volume_20d := vb.1
    current_volume := vb.2.1 }

/-! ### Peer benchmark and the orchestrators -/

/-- Python `x or 0.0` on a sanitized float: None and 0.0 fall back to the
default. -/
def pyOrQ (x : Option ℚ) (d : ℚ) : ℚ :=
  match x with
  | some q => if q = 0 then d else q
  | none => d

/-- The candidate scan of `_peer_benchmark_for_ticker` (market.py:543):
skip the target; read each candidate's cached profile; prefer an exact
industry match, fall back to a sector match when no industry information is
in play; score by market cap (`or 0.0`). -/
def peer_scan (env : Env) (now : ℚ) (primary : PyStr) (tSec tInd : PyStr) :
    List PyStr → St → List (ℚ × PyStr) × St
  | [], st => ([], st)
  | t :: rest, st =>
      if t = primary then peer_scan env now primary tSec tInd rest st
      else
        let gi := get_ticker_info env st now DEFAULT_USE_YF_INFO (normalize_ticker t)
        let sec := pyLower (pyStrip (gi.1.sector.getD []))
        let ind := pyLower (pyStrip (gi.1.industry.getD []))
        let entry : List (ℚ × PyStr) :=
          if ¬tInd.isEmpty ∧ ¬ind.isEmpty ∧ ind = tInd then
            [(pyOrQ (safe_float_opt gi.1.marketCap) 0, t)]
          else if (tInd.isEmpty ∨ ind.isEmpty) ∧ ¬tSec.isEmpty ∧ ¬sec.isEmpty ∧ sec = tSec then
            [(pyOrQ (safe_float_opt gi.1.marketCap) 0, t)]
          else []
        let prev := peer_scan env now primary tSec tInd rest gi.2
        (entry ++ prev.1, prev.2)

/-- Stable descending insertion by score (Python `sort(reverse=True)` keeps
the original order of equal keys). -/
def insertDesc (x : ℚ × PyStr) : List (ℚ × PyStr) → List (ℚ × PyStr)
  | [] => [x]
  | y :: ys => if y.1 ≤ x.1 then x :: y :: ys else y :: insertDesc x ys

/-- Stable descending sort by score. -/
def sortDesc : List (ℚ × PyStr) → List (ℚ × PyStr)
  | [] => []
  | x :: xs => insertDesc x (sortDesc xs)

/-- The peer pricing loop (market.py:568): each selected peer is priced via
the supplied snapshot function — in the source, the full
`fetch_market_context` — and non-null day moves are collected in order. -/
def peer_moves (fetchF : St → PyStr → MarketResult × St) :
    List PyStr → St → List ℚ × St
  | [], st => ([], st)
  | p :: rest, st =>
      let r := fetchF st p
      let ms := peer_moves fetchF rest r.2
      (match r.1.day_move_pct with
       | some d => d :: ms.1
       | none => ms.1, ms.2)

/-- `_peer_benchmark_for_ticker` (market.py:516): offline candidate
universe capped at 500; scan for profile matches; rank by market cap
descending; take up to `maxPeers`; price each selected peer through
`fetchF`; average the available moves. -/
def peer_benchmark_for_ticker (fetchF : St → PyStr → MarketResult × St)
    (env : Env) (now : ℚ) (st : St)
    (args : PyStr × Option PyStr × Option PyStr × ℕ) :
    (Option PyStr × Option ℕ × Option ℚ) × St :=
  let primary := args.1
  let sector := args.2.1
  let industry := args.2.2.1
  let maxPeers := args.2.2.2
  let univ := env.sp500List.take 500
  let tSec := pyLower (pyStrip (sector.getD []))
  let tInd := pyLower (pyStrip (industry.getD []))
  let sc := peer_scan env now primary tSec tInd univ st
  if sc.1.isEmpty then ((none, none, none), sc.2)
  else
    let peers := ((sortDesc sc.1).take maxPeers).map (fun x => x.2)
    if peers.isEmpty then ((none, none, none), sc.2)
    else
      let mv := peer_moves fetchF peers sc.2
      if mv.1.isEmpty then ((none, some peers.length, none), mv.2)
      else
        let avg := mv.1.foldl (· + ·) 0 / (mv.1.length : ℚ)
        let label := if ¬tInd.isEmpty then some strIndustryPeers else some strSectorPeers
        ((label, some peers.length, safe_float (Fl.fin avg)), mv.2)

/-- The 1y frame acquisition (market.py:626-645): one direct yfinance call
(exceptions yield the empty frame), coerced; on an unusable frame, the Alpha
Vantage OHLC fallback.  Returns (frame, data_source, state with call
counters). -/
def acquire1y (env : Env) (st : St) (tn : PyStr) : Frame × Option PyStr × St :=
  let st2 := { st with yfCalls := st.yfCalls + 1 }
  let dfA := match env.yf tn per1y with
             | DlOut.ok f => coerce_ohlcv_df f
             | DlOut.err _ => emptyFrame
  if frameOk dfA then (dfA, some strYf, st2)
  else
    let st3 := { st2 with avCalls := st2.avCalls + 1 }
    let dfB := coerce_ohlcv_df (df_from_alpha_vantage_ohlc (env.avOhlc tn))
    if frameOk dfB then (dfB, some strAv, st3) else (dfB, none, st3)

/-- The tail of the cache-miss body of `fetch_market_context`
(market.py:626-858) after profile backfill: the three degraded exits and the
full indicator/benchmark computation, given the acquired frame and phase
data source.  `peerFn` stands for `_peer_benchmark_for_ticker` with its
recursive snapshot function already supplied. -/
def computeRest (env : Env) (now : ℚ)
    (peerFn : St → PyStr × Option PyStr × Option PyStr × ℕ →
      (Option PyStr × Option ℕ × Option ℚ) × St)
    (st4 : St) (tn : PyStr) (mc : Option ℚ) (sector industry : Option PyStr)
    (betav pev : Option ℚ) (df : Frame) (dsrc : Option PyStr) :
    MarketResult × St :=
  if frameOk df = false then
    let st5 := { st4 with avCalls := st4.avCalls + 1 }
    (degraded_no_frame mc sector industry betav pev (env.av1mo tn), st5)
  else
    let closes_all := winsorize_series (dropnaCp (frameCloses df))
    let closes_1m := tailN 32 closes_all
    let closes_stats := tailN 60 closes_all
    let seriesPts := closes_1m
    if seriesPts.isEmpty then
      let st5 := { st4 with avCalls := st4.avCalls + 1 }
      (degraded_no_series mc sector industry betav pev (env.av1mo tn) dsrc, st5)
    else
      let rets := dropnaFl (pct_change (closes_stats.map (fun p => p.close)))
      if rets.isEmpty then
        (degraded_no_rets mc sector industry betav pev seriesPts dsrc, st4)
      else
        let vol20fl := env.std (tailN 20 rets)
        let sp := fetch_sp500_performance env st4 now
        let se := fetch_sector_performance env sp.2 now sector
        let ib := industry_benchmark_etf industry sector
        let ip := fetch_etf_daily_move env se.2 now ib.2
        let pr := peerFn ip.2 (tn, sector, industry, 10)
        (main_result closes_all rets seriesPts dsrc mc sector industry betav pev
          vol20fl sp.1 se.1 ib.1 ip.1 pr.1.1 pr.1.2.1 pr.1.2.2 df, pr.2)

/-- The cache-miss body of `fetch_market_context` (market.py:604-858)
without the final `_cache_set`: profile backfill, the 1y-frame acquisition
with Alpha Vantage OHLC fallback, then `computeRest`. -/
def computeSnapshot (env : Env) (now : ℚ)
    (peerFn : St → PyStr × Option PyStr × Option PyStr × ℕ →
      (Option PyStr × Option ℕ × Option ℚ) × St)
    (st : St) (tn : PyStr) : MarketResult × St :=
  let gi := get_ticker_info env st now DEFAULT_USE_YF_INFO tn
  let st1 := gi.2
  let mc := safe_float_opt gi.1.marketCap
  let sector0 := clean_profile_str gi.1.sector
  let industry0 := clean_profile_str gi.1.industry
  let prof := env.sp500Profile tn
  let sector := if sector0 = none ∨ industry0 = none
    then (match sector0 with
          | some s => some s
          | none => clean_profile_str prof.1)
    else sector0
  let industry := if sector0 = none ∨ industry0 = none
    then (match industry0 with
          | some s => some s
          | none => clean_profile_str prof.2)
    else industry0
  let betav := safe_float_opt gi.1.beta
  let pev := safe_float_opt gi.1.trailingPE
  let acq := acquire1y env st1 tn
  computeRest env now peerFn acq.2.2 tn mc sector industry betav pev acq.1 acq.2.1

/-- `fetch_market_context` minus the peer recursion (market.py:584): falsy
ticker short-circuit, normalization, the TTL cache read, and — on a miss —
one execution of the body followed by `_cache_set` (each branch of the
source body stores its result before returning; the store is written once
here, after the body).  The miss is logged in `runs` to count
recomputations. -/
def fetchBody (env : Env) (now : ℚ)
    (peerFn : St → PyStr × Option PyStr × Option PyStr × ℕ →
      (Option PyStr × Option ℕ × Option ℚ) × St)
    (st : St) (ot : Option PyStr) : MarketResult × St :=
  match ot with
  | none => (empty_result, st)
  | some t0 =>
      if t0.isEmpty then (empty_result, st)
      else
        let tn := normalize_ticker t0
        let cg := cache_get st.mcache now tn
        match cg.1 with
        | some v => (v, { st with mcache := cg.2 })
        | none =>
            let st1 := { st with mcache := cg.2, runs := st.runs ++ [tn] }
            let cs := computeSnapshot env now peerFn st1 tn
            (cs.1, { cs.2 with mcache := cache_set cs.2.mcache now tn cs.1 })

/-- `fetch_market_context` (market.py:584) with an explicit recursion-depth
fuel: the source recurses into itself through the peer loop; exhausted fuel
models the RecursionError that the `except` in `_peer_benchmark_for_ticker`
turns into `(None, None, None)`. -/
def fetch_market_context (env : Env) (now : ℚ) :
    ℕ → St → Option PyStr → MarketResult × St
  | 0, st, ot =>
      fetchBody env now (fun st' _ => ((none, none, none), st')) st ot
  | n + 1, st, ot =>
      fetchBody env now
        (fun st' args =>
          peer_benchmark_for_ticker
            (fun st'' p => fetch_market_context env now n st'' (some p))
            env now st' args)
        st ot

/-- `fetch_market_context_light` (market.py:861): a single 1mo download
(never the main cache, never benchmarks or peers), falling back to the
Alpha Vantage close-only series. -/
def fetch_market_context_light (env : Env) (st : St) (now : ℚ)
    (ot : Option PyStr) : MarketResult × St :=
  match ot with
  | none => (empty_result, st)
  | some t0 =>
      if t0.isEmpty then (empty_result, st)
      else
        let tn := normalize_ticker t0
        let st1 := { st with yfCalls := st.yfCalls + 1 }
        let df := match env.yf tn per1mo with
                  | DlOut.ok f => coerce_ohlcv_df f
                  | DlOut.err _ => emptyFrame
        if frameOk df = false then
          let st2 := { st1 with avCalls := st1.avCalls + 1 }
          let seriesAv := env.av1mo tn
          ({ empty_result with
              price_series := seriesAv
              data_source := if seriesAv.isEmpty then none else some strAv
              last_close_date := (seriesAv.getLast?).map (fun p => p.date)
              price_series_days := some (if seriesAv.isEmpty then 0 else seriesAv.length) },
            st2)
        else
          let closes := dropnaCp (frameCloses df)
          let closes_1m := tailN 32 closes
          let closes_stats := tailN 60 closes
          let seriesPts := closes_1m
          let closesV := closes.map (fun p => p.close)
          let day_move_pct := day_move_of closesV
          let rets := dropnaFl (pct_change (closes_stats.map (fun p => p.close)))
          let vz : Option ℚ × Option ℚ :=
            if rets.isEmpty then (none, none)
            else
              let v := env.std (tailN 20 rets)
              (safe_float (flMul v (Fl.fin 100)), zscore_of rets v)
          ({ empty_result with
              price_series := seriesPts
              day_move_pct := day_move_pct
              vol_20d := vz.1
              move_zscore := vz.2
              data_source := if frameOk df then some strYf else none
              last_close_date := (seriesPts.getLast?).map (fun p => p.date)
              price_series_days := some (if seriesPts.isEmpty then 0 else seriesPts.length) },
            st1)

/-! ### Branch-analysis helpers -/

/-- Every result of the snapshot body is one of the four assembly shapes,
with the price series of the two computed shapes coming from the winsorized,
NaN-dropped close column. -/
lemma computeRest_cases (P : MarketResult → Prop) (env : Env) (now : ℚ)
    (peerFn : St → PyStr × Option PyStr × Option PyStr × ℕ →
      (Option PyStr × Option ℕ × Option ℚ) × St)
    (st4 : St) (tn : PyStr) (mc : Option ℚ) (sector industry : Option PyStr)
    (betav pev : Option ℚ) (df : Frame) (dsrc : Option PyStr)
    (h1 : ∀ mc sec ind b p sa, P (degraded_no_frame mc sec ind b p sa))
    (h2 : ∀ mc sec ind b p sa ds, P (degraded_no_series mc sec ind b p sa ds))
    (h3 : ∀ mc sec ind b p ds df,
      P (degraded_no_rets mc sec ind b p
          (tailN 32 (winsorize_series (dropnaCp (frameCloses df)))) ds))
    (h4 : ∀ (df : Frame) (rets : List Fl) ds mc sec ind b p v sp se il ip pl pn pa,
      P (main_result (winsorize_series (dropnaCp (frameCloses df))) rets
          (tailN 32 (winsorize_series (dropnaCp (frameCloses df)))) ds mc sec ind
          b p v sp se il ip pl pn pa df)) :
    P (computeRest env now peerFn st4 tn mc sector industry betav pev df dsrc).1 := by
  unfold computeRest
  dsimp only
  split
  · exact h1 _ _ _ _ _ _
  · split
    · exact h2 _ _ _ _ _ _ _
    · split
      · exact h3 _ _ _ _ _ _ _
      · exact h4 _ _ _ _ _ _ _ _ _ _ _ _ _ _ _ _

lemma computeSnapshot_cases (P : MarketResult → Prop) (env : Env) (now : ℚ)
    (peerFn : St → PyStr × Option PyStr × Option PyStr × ℕ →
      (Option PyStr × Option ℕ × Option ℚ) × St)
    (st : St) (tn : PyStr)
    (h1 : ∀ mc sec ind b p sa, P (degraded_no_frame mc sec ind b p sa))
    (h2 : ∀ mc sec ind b p sa ds, P (degraded_no_series mc sec ind b p sa ds))
    (h3 : ∀ mc sec ind b p ds df,
      P (degraded_no_rets mc sec ind b p
          (tailN 32 (winsorize_series (dropnaCp (frameCloses df)))) ds))
    (h4 : ∀ (df : Frame) (rets : List Fl) ds mc sec ind b p v sp se il ip pl pn pa,
      P (main_result (winsorize_series (dropnaCp (frameCloses df))) rets
          (tailN 32 (winsorize_series (dropnaCp (frameCloses df)))) ds mc sec ind
          b p v sp se il ip pl pn pa df)) :
    P (computeSnapshot env now peerFn st tn).1 :=
  computeRest_cases P env now peerFn _ tn _ _ _ _ _ _ _ h1 h2 h3 h4

/-- Every result of `fetchBody` on an empty snapshot cache is the empty
snapshot or a body result. -/
lemma fetchBody_cases (P : MarketResult → Prop) (env : Env) (now : ℚ)
    (peerFn : St → PyStr × Option PyStr × Option PyStr × ℕ →
      (Option PyStr × Option ℕ × Option ℚ) × St)
    (st : St) (ot : Option PyStr)
    (hmc : ∀ k, st.mcache k = none)
    (h0 : P empty_result)
    (hcs : ∀ st' tn, P (computeSnapshot env now peerFn st' tn).1) :
    P (fetchBody env now peerFn st ot).1 := by
  unfold fetchBody
  match ot with
  | none => exact h0
  | some t0 =>
      dsimp only
      split
      · exact h0
      · have hget : cache_get st.mcache now (normalize_ticker t0)
            = (none, st.mcache) := by
          unfold cache_get
          rw [hmc (normalize_ticker t0)]
        rw [hget]
        exact hcs _ _

/-- Every result of `fetch_market_context` on an empty snapshot cache is the
empty snapshot or a body result. -/
lemma fetch_market_context_cases (P : MarketResult → Prop) (env : Env) (now : ℚ)
    (fuel : ℕ) (st : St) (ot : Option PyStr)
    (hmc : ∀ k, st.mcache k = none)
    (h0 : P empty_result)
    (h1 : ∀ mc sec ind b p sa, P (degraded_no_frame mc sec ind b p sa))
    (h2 : ∀ mc sec ind b p sa ds, P (degraded_no_series mc sec ind b p sa ds))
    (h3 : ∀ mc sec ind b p ds df,
      P (degraded_no_rets mc sec ind b p
          (tailN 32 (winsorize_series (dropnaCp (frameCloses df)))) ds))
    (h4 : ∀ (df : Frame) (rets : List Fl) ds mc sec ind b p v sp se il ip pl pn pa,
      P (main_result (winsorize_series (dropnaCp (frameCloses df))) rets
          (tailN 32 (winsorize_series (dropnaCp (frameCloses df)))) ds mc sec ind
          b p v sp se il ip pl pn pa df)) :
    P (fetch_market_context env now fuel st ot).1 := by
  cases fuel with
  | zero =>
      exact fetchBody_cases P env now _ st ot hmc h0
        (fun st' tn => computeSnapshot_cases P env now _ st' tn h1 h2 h3 h4)
  | succ n =>
      exact fetchBody_cases P env now _ st ot hmc h0
        (fun st' tn => computeSnapshot_cases P env now _ st' tn h1 h2 h3 h4)

/-! ### Concrete fixtures for evaluations -/

/-- Fresh module state: all three caches empty, counters zero. -/
def stEmpty : St :=
  { mcache := fun _ => none, bcache := fun _ => none, icache := fun _ => none,
    yfCalls := 0, avCalls := 0, runs := [] }

/-- A base environment in which every provider fails/returns nothing. -/
def envBase : Env :=
  { yf := fun _ _ => DlOut.err []
    dlseq := fun _ _ _ => DlOut.err []
    avOhlc := fun _ => []
    av1mo := fun _ => []
    sp500Profile := fun _ => (none, none)
    sp500List := []
    yfInfo := fun _ => emptyInfo
    std := fun _ => Fl.fin 0 }

/-- A ticker whose normalization is itself. -/
def tkAAA : PyStr := str2py "AAA"

/-- Environment for the zero-volatility run: three equal closes, and a std
kernel that correctly reports 0 for the constant return series. -/
def envFlatCloses : Env :=
  { envBase with
      yf := fun t p =>
        if t = tkAAA ∧ p = per1y then
          DlOut.ok { rows := [⟨1, Fl.fin 5, none⟩, ⟨2, Fl.fin 5, none⟩,
                              ⟨3, Fl.fin 5, none⟩], hasVol := false }
        else DlOut.err [] }


/-! ### C5: volatility regime -/

/-- C5 (amended): in every snapshot computed by `fetch_market_context`, the
volatility regime is "low" iff 0 ≠ vol_20d < 1, "high" iff vol_20d > 3, and
"normal" otherwise — but it is null not only when vol_20d is null: the
Python truthiness guard `if vol_20d:` also leaves it null when vol_20d is
exactly 0. -/
theorem volatility_regime_matches_thresholds (env : Env) (now : ℚ) (fuel : ℕ)
    (st : St) (ot : Option PyStr) (hmc : ∀ k, st.mcache k = none) :
    (fetch_market_context env now fuel st ot).1.volatility_regime =
      match (fetch_market_context env now fuel st ot).1.vol_20d with
      | some v =>
          if v ≠ 0 then
            (if v < 1 then some strLow else if 3 < v then some strHigh
             else some strNormal)
          else none
      | none => none := by
  apply fetch_market_context_cases
    (fun r => r.volatility_regime =
      match r.vol_20d with
      | some v =>
          if v ≠ 0 then
            (if v < 1 then some strLow else if 3 < v then some strHigh
             else some strNormal)
          else none
      | none => none)
    env now fuel st ot hmc rfl
  · intro mc sec ind b p sa
    rfl
  · intro mc sec ind b p sa ds
    rfl
  · intro mc sec ind b p ds df
    rfl
  · intro df rets ds mc sec ind b p v sp se il ip pl pn pa
    rfl

set_option maxRecDepth 8000 in
set_option maxHeartbeats 2000000 in
/-- C5 (counterexample): three equal closes give vol_20d = 0.0 (non-null),
yet volatility_regime is null instead of "low". -/
theorem volatility_regime_null_at_zero_vol :
    (fetch_market_context envFlatCloses 0 1 stEmpty (some tkAAA)).1.vol_20d = some 0 ∧
    (fetch_market_context envFlatCloses 0 1 stEmpty (some tkAAA)).1.volatility_regime
      = none := by
  constructor <;> norm_num +decide [fetch_market_context, fetchBody, computeSnapshot, acquire1y, computeRest,
    cache_get, cache_set, stEmpty, envBase, tkAAA, str2py, normalize_ticker,
    pyStrip, pyUpper, pyReplaceDot, upChar, repChar, isSpaceN, List.rdropWhile,
    get_ticker_info, DEFAULT_USE_YF_INFO, safe_float_opt, clean_profile_str,
    emptyInfo, per1y, per1mo, per5d, coerce_ohlcv_df, emptyFrame, frameOk,
    sortBars, insertBar, flIsNa, frameCloses, dropnaCp, winsorize_series,
    flQuantile, flSorted, flInsert, flLeB, flLtB, tailN, flClip, pct_change,
    dropnaFl, flDiv, flSub, flAdd, flNeg, flMul, main_result, day_move_of,
    zscore_of, week52, pct_vs, near_flag, regime_of, rel_str, rel_str_peers,
    volume_block, safe_float, flTruthy, flLast, flLast2, flMaxList, flMinList,
    flMeanList, flSum, calculate_rsi, flDiffs, frameVolumes,
    fetch_sp500_performance, fetch_sector_performance, fetch_etf_daily_move,
    avTailMove, bench_cache_get, bench_cache_set, strSPY,
    industry_benchmark_etf, optStrTruthy, sector_etfs, anyInfix, listInfixOf,
    isPre, peer_benchmark_for_ticker, peer_scan, peer_moves, sortDesc,
    insertDesc, pyOrQ, pyLower, wordCount, BAD_PROFILE_VALUES,
    degraded_no_frame, degraded_no_series, degraded_no_rets, empty_result,
    strYf, strAv, strLow, strHigh, strNormal, CACHE_TTL, BENCH_TTL, INFO_TTL,
    fetch_market_context_light, envFlatCloses]

/-- Witness for the amended C5 theorem at a concrete run. -/
theorem volatility_regime_matches_thresholds_witness :
    (∀ k, stEmpty.mcache k = none) ∧
    ((fetch_market_context envFlatCloses 0 1 stEmpty (some tkAAA)).1.volatility_regime =
      match (fetch_market_context envFlatCloses 0 1 stEmpty (some tkAAA)).1.vol_20d with
      | some v =>
          if v ≠ 0 then
            (if v < 1 then some strLow else if 3 < v then some strHigh
             else some strNormal)
          else none
      | none => none) :=
  ⟨fun _ => rfl,
   volatility_regime_matches_thresholds envFlatCloses 0 1 stEmpty (some tkAAA)
     (fun _ => rfl)⟩

/-! ### C6: relative-strength fields -/

/-- Fixture for the relative-strength run: two equal closes (day move 0.0)
with a Technology profile from the offline directory. -/
def envZeroDay : Env :=
  { envBase with
      yf := fun t p =>
        if t = tkAAA ∧ p = per1y then
          DlOut.ok { rows := [⟨1, Fl.fin 5, none⟩, ⟨2, Fl.fin 5, none⟩],
                     hasVol := false }
        else DlOut.err []
      sp500Profile := fun t =>
        if t = tkAAA then (some (str2py "Technology"), none) else (none, none) }

/-- State with fresh benchmark-cache entries for SPY and the Technology
ETF. -/
def stBench : St :=
  { stEmpty with
      bcache := fun k =>
        if k = str2py "XLK" then some (0, some 1)
        else if k = strSPY then some (0, some 3) else none }

/-- C6 (amended): each relative-strength field equals the target day move
minus the corresponding benchmark, but — through the Python truthiness
guards `if day_move_pct and ...:` — it is null not only when a side is null:
a 0.0 day move always nulls all three, and a 0.0 sector/industry benchmark
nulls its field (the peer benchmark alone is checked with `is not None`). -/
theorem relative_strength_fields_formula (env : Env) (now : ℚ) (fuel : ℕ)
    (st : St) (ot : Option PyStr) (hmc : ∀ k, st.mcache k = none) :
    ((fetch_market_context env now fuel st ot).1.relative_strength =
      match (fetch_market_context env now fuel st ot).1.day_move_pct,
            (fetch_market_context env now fuel st ot).1.sector_performance_today with
      | some d, some s => if d ≠ 0 ∧ s ≠ 0 then some (d - s) else none
      | _, _ => none) ∧
    ((fetch_market_context env now fuel st ot).1.relative_strength_vs_industry =
      match (fetch_market_context env now fuel st ot).1.day_move_pct,
            (fetch_market_context env now fuel st ot).1.industry_performance_today with
      | some d, some s => if d ≠ 0 ∧ s ≠ 0 then some (d - s) else none
      | _, _ => none) ∧
    ((fetch_market_context env now fuel st ot).1.relative_strength_vs_peers =
      match (fetch_market_context env now fuel st ot).1.day_move_pct,
            (fetch_market_context env now fuel st ot).1.peer_avg_move_today with
      | some d, some p => if d ≠ 0 then some (d - p) else none
      | _, _ => none) := by
  apply fetch_market_context_cases
    (fun r =>
      (r.relative_strength =
        match r.day_move_pct, r.sector_performance_today with
        | some d, some s => if d ≠ 0 ∧ s ≠ 0 then some (d - s) else none
        | _, _ => none) ∧
      (r.relative_strength_vs_industry =
        match r.day_move_pct, r.industry_performance_today with
        | some d, some s => if d ≠ 0 ∧ s ≠ 0 then some (d - s) else none
        | _, _ => none) ∧
      (r.relative_strength_vs_peers =
        match r.day_move_pct, r.peer_avg_move_today with
        | some d, some p => if d ≠ 0 then some (d - p) else none
        | _, _ => none))
    env now fuel st ot hmc ⟨rfl, rfl, rfl⟩
  · intro mc sec ind b p sa
    exact ⟨rfl, rfl, rfl⟩
  · intro mc sec ind b p sa ds
    exact ⟨rfl, rfl, rfl⟩
  · intro mc sec ind b p ds df
    exact ⟨rfl, rfl, rfl⟩
  · intro df rets ds mc sec ind b p v sp se il ip pl pn pa
    exact ⟨rfl, rfl, rfl⟩

set_option maxRecDepth 8000 in
set_option maxHeartbeats 2000000 in
/-- C6 (counterexample): a 0.0 day move with a non-null sector benchmark of
1.0 leaves relative_strength null, where the claim requires 0 − 1 = −1. -/
theorem relative_strength_null_at_zero_day_move :
    (fetch_market_context envZeroDay 0 1 stBench (some tkAAA)).1.day_move_pct = some 0 ∧
    (fetch_market_context envZeroDay 0 1 stBench (some tkAAA)).1.sector_performance_today
      = some 1 ∧
    (fetch_market_context envZeroDay 0 1 stBench (some tkAAA)).1.relative_strength
      = none := by
  refine ⟨?_, ?_, ?_⟩ <;>
    norm_num +decide [fetch_market_context, fetchBody, computeSnapshot, acquire1y, computeRest,
    cache_get, cache_set, stEmpty, envBase, tkAAA, str2py, normalize_ticker,
    pyStrip, pyUpper, pyReplaceDot, upChar, repChar, isSpaceN, List.rdropWhile,
    get_ticker_info, DEFAULT_USE_YF_INFO, safe_float_opt, clean_profile_str,
    emptyInfo, per1y, per1mo, per5d, coerce_ohlcv_df, emptyFrame, frameOk,
    sortBars, insertBar, flIsNa, frameCloses, dropnaCp, winsorize_series,
    flQuantile, flSorted, flInsert, flLeB, flLtB, tailN, flClip, pct_change,
    dropnaFl, flDiv, flSub, flAdd, flNeg, flMul, main_result, day_move_of,
    zscore_of, week52, pct_vs, near_flag, regime_of, rel_str, rel_str_peers,
    volume_block, safe_float, flTruthy, flLast, flLast2, flMaxList, flMinList,
    flMeanList, flSum, calculate_rsi, flDiffs, frameVolumes,
    fetch_sp500_performance, fetch_sector_performance, fetch_etf_daily_move,
    avTailMove, bench_cache_get, bench_cache_set, strSPY,
    industry_benchmark_etf, optStrTruthy, sector_etfs, anyInfix, listInfixOf,
    isPre, peer_benchmark_for_ticker, peer_scan, peer_moves, sortDesc,
    insertDesc, pyOrQ, pyLower, wordCount, BAD_PROFILE_VALUES,
    degraded_no_frame, degraded_no_series, degraded_no_rets, empty_result,
    strYf, strAv, strLow, strHigh, strNormal, CACHE_TTL, BENCH_TTL, INFO_TTL,
    fetch_market_context_light, envZeroDay, stBench]

/-- Witness for the amended C6 theorem at a concrete run. -/
theorem relative_strength_fields_formula_witness :
    (∀ k, stBench.mcache k = none) ∧
    ((fetch_market_context envZeroDay 0 1 stBench (some tkAAA)).1.relative_strength =
      match (fetch_market_context envZeroDay 0 1 stBench (some tkAAA)).1.day_move_pct,
            (fetch_market_context envZeroDay 0 1 stBench (some tkAAA)).1.sector_performance_today with
      | some d, some s => if d ≠ 0 ∧ s ≠ 0 then some (d - s) else none
      | _, _ => none) :=
  ⟨fun _ => rfl,
   (relative_strength_fields_formula envZeroDay 0 1 stBench (some tkAAA)
     (fun _ => rfl)).1⟩

/-! ### C4: near_52w_high at the exact 52-week high -/

/-- Fixture: ascending closes whose winsorized latest value equals the
52-week high, so pct_from_52w_high is exactly 0. -/
def envAtHigh : Env :=
  { envBase with
      std := fun _ => Fl.fin 1
      yf := fun t p =>
        if t = tkAAA ∧ p = per1y then
          DlOut.ok { rows := [⟨1, Fl.fin 100, none⟩, ⟨2, Fl.fin 200, none⟩],
                     hasVol := false }
        else DlOut.err [] }

set_option maxRecDepth 8000 in
set_option maxHeartbeats 2000000 in
/-- C4 (the code at the failing input): for an ascending close series whose
latest close sits exactly at the 52-week high — the claim's own
252-ascending-closes scenario lands here too, since the last close is the
maximum both before and after winsorization — pct_from_52w_high is the
non-null value 0 ≥ −5, yet near_52w_high is false: the guard
`if pct_from_52w_high and pct_from_52w_high >= -5:` treats the float 0.0 as
falsy. -/
theorem near_52w_high_false_at_exact_high :
    (fetch_market_context envAtHigh 0 1 stEmpty (some tkAAA)).1.pct_from_52w_high
      = some 0 ∧
    (fetch_market_context envAtHigh 0 1 stEmpty (some tkAAA)).1.near_52w_high
      = false := by
  constructor <;>
    norm_num +decide [fetch_market_context, fetchBody, computeSnapshot, acquire1y, computeRest,
    cache_get, cache_set, stEmpty, envBase, tkAAA, str2py, normalize_ticker,
    pyStrip, pyUpper, pyReplaceDot, upChar, repChar, isSpaceN, List.rdropWhile,
    get_ticker_info, DEFAULT_USE_YF_INFO, safe_float_opt, clean_profile_str,
    emptyInfo, per1y, per1mo, per5d, coerce_ohlcv_df, emptyFrame, frameOk,
    sortBars, insertBar, flIsNa, frameCloses, dropnaCp, winsorize_series,
    flQuantile, flSorted, flInsert, flLeB, flLtB, tailN, flClip, pct_change,
    dropnaFl, flDiv, flSub, flAdd, flNeg, flMul, main_result, day_move_of,
    zscore_of, week52, pct_vs, near_flag, regime_of, rel_str, rel_str_peers,
    volume_block, safe_float, flTruthy, flLast, flLast2, flMaxList, flMinList,
    flMeanList, flSum, calculate_rsi, flDiffs, frameVolumes,
    fetch_sp500_performance, fetch_sector_performance, fetch_etf_daily_move,
    avTailMove, bench_cache_get, bench_cache_set, strSPY,
    industry_benchmark_etf, optStrTruthy, sector_etfs, anyInfix, listInfixOf,
    isPre, peer_benchmark_for_ticker, peer_scan, peer_moves, sortDesc,
    insertDesc, pyOrQ, pyLower, wordCount, BAD_PROFILE_VALUES,
    degraded_no_frame, degraded_no_series, degraded_no_rets, empty_result,
    strYf, strAv, strLow, strHigh, strNormal, CACHE_TTL, BENCH_TTL, INFO_TTL,
    fetch_market_context_light, envAtHigh]

/-! ### C1: what prices the peers -/

/-- The primary ticker of the peer run. -/
def tkT : PyStr := str2py "TT"

/-- The single peer candidate. -/
def tkP : PyStr := str2py "PP"

/-- Profile info placed in the info cache for the target. -/
def infoTech : TickerInfo := { sector := some (str2py "Technology") }

/-- Profile info for the peer candidate (sector match, market cap 10). -/
def infoPeer : TickerInfo :=
  { sector := some (str2py "Technology"), marketCap := some (Fl.fin 10) }

/-- State whose info cache holds the two profiles and whose benchmark cache
is pre-warmed, so the run needs no benchmark downloads. -/
def stPeers : St :=
  { stEmpty with
      icache := fun k =>
        if k = tkP then some (0, infoPeer)
        else if k = tkT then some (0, infoTech) else none
      bcache := fun k =>
        if k = str2py "XLK" then some (0, some 7)
        else if k = strSPY then some (0, some 3) else none }

/-- Environment in which the peer's 1-year window (used by the full
pipeline) ends flat (day move 0) while its 1-month window (used by the
lightweight path) ends up 10%. -/
def envPeers : Env :=
  { envBase with
      sp500List := [tkP]
      yf := fun t p =>
        if t = tkP ∧ p = per1y then
          DlOut.ok { rows := [⟨1, Fl.fin 100, none⟩, ⟨2, Fl.fin 100, none⟩],
                     hasVol := false }
        else if t = tkP ∧ p = per1mo then
          DlOut.ok { rows := [⟨1, Fl.fin 100, none⟩, ⟨2, Fl.fin 110, none⟩],
                     hasVol := false }
        else if t = tkT ∧ p = per1y then
          DlOut.ok { rows := [⟨1, Fl.fin 100, none⟩, ⟨2, Fl.fin 100, none⟩],
                     hasVol := false }
        else DlOut.err [] }

/-- When the candidate scan selects exactly one peer, the peer average is
exactly that peer's day move as computed by the supplied pricing
function. -/
lemma peer_benchmark_single (fetchF : St → PyStr → MarketResult × St)
    (env : Env) (now : ℚ) (st : St) (primary : PyStr)
    (sector industry : Option PyStr) (cand : PyStr) (c d : ℚ)
    (hscan : peer_scan env now primary (pyLower (pyStrip (sector.getD [])))
        (pyLower (pyStrip (industry.getD []))) (env.sp500List.take 500) st
        = ([(c, cand)], st))
    (hfetch : (fetchF st cand).1.day_move_pct = some d) :
    (peer_benchmark_for_ticker fetchF env now st (primary, sector, industry, 10)).1.2.2
      = some d := by
  unfold peer_benchmark_for_ticker
  dsimp only
  rw [hscan]
  simp only [List.isEmpty_cons, sortDesc, insertDesc, List.take, List.map]
  unfold peer_moves
  dsimp only
  rw [hfetch]
  unfold peer_moves
  simp only [List.isEmpty_cons, List.isEmpty_nil, Bool.false_eq_true, if_false,
    List.foldl, List.length_cons, List.length_nil, safe_float]
  norm_num

set_option maxRecDepth 8000 in
set_option maxHeartbeats 4000000 in
/-- C1 (the code at the failing input): `fetch_market_context` wires
`_peer_benchmark_for_ticker` with itself — the full benchmark-and-peer
pipeline — as the per-peer pricing function (first conjunct, definitional);
and with one selected peer whose 1-year window ends flat while its 1-month
window is up 10%, the peer average it computes is 0, the full-pipeline day
move, not the 10 the lightweight day-move-only path produces for the very
same peer ticker. -/
theorem peer_moves_use_full_pipeline :
    (∀ (env : Env) (now : ℚ) (n : ℕ) (st : St) (ot : Option PyStr),
      fetch_market_context env now (n + 1) st ot =
        fetchBody env now
          (fun st1 args =>
            peer_benchmark_for_ticker
              (fun st2 p => fetch_market_context env now n st2 (some p))
              env now st1 args) st ot) ∧
    (peer_benchmark_for_ticker
        (fun st p => fetch_market_context envPeers 0 1 st (some p))
        envPeers 0 stPeers
        (tkT, some (str2py "Technology"), none, 10)).1.2.2 = some 0 ∧
    (fetch_market_context_light envPeers stPeers 0 (some tkP)).1.day_move_pct
      = some 10 := by
  refine ⟨fun env now n st ot => rfl, ?_, ?_⟩
  · apply peer_benchmark_single _ envPeers 0 stPeers tkT _ _ tkP 10 0
    · norm_num +decide [fetch_market_context, fetchBody, computeSnapshot, acquire1y, computeRest,
    cache_get, cache_set, stEmpty, envBase, tkAAA, str2py, normalize_ticker,
    pyStrip, pyUpper, pyReplaceDot, upChar, repChar, isSpaceN, List.rdropWhile,
    get_ticker_info, DEFAULT_USE_YF_INFO, safe_float_opt, clean_profile_str,
    emptyInfo, per1y, per1mo, per5d, coerce_ohlcv_df, emptyFrame, frameOk,
    sortBars, insertBar, flIsNa, frameCloses, dropnaCp, winsorize_series,
    flQuantile, flSorted, flInsert, flLeB, flLtB, tailN, flClip, pct_change,
    dropnaFl, flDiv, flSub, flAdd, flNeg, flMul, main_result, day_move_of,
    zscore_of, week52, pct_vs, near_flag, regime_of, rel_str, rel_str_peers,
    volume_block, safe_float, flTruthy, flLast, flLast2, flMaxList, flMinList,
    flMeanList, flSum, calculate_rsi, flDiffs, frameVolumes,
    fetch_sp500_performance, fetch_sector_performance, fetch_etf_daily_move,
    avTailMove, bench_cache_get, bench_cache_set, strSPY,
    industry_benchmark_etf, optStrTruthy, sector_etfs, anyInfix, listInfixOf,
    isPre, peer_benchmark_for_ticker, peer_scan, peer_moves, sortDesc,
    insertDesc, pyOrQ, pyLower, wordCount, BAD_PROFILE_VALUES,
    degraded_no_frame, degraded_no_series, degraded_no_rets, empty_result,
    strYf, strAv, strLow, strHigh, strNormal, CACHE_TTL, BENCH_TTL, INFO_TTL,
    fetch_market_context_light, envPeers, stPeers, tkT, tkP, infoTech, infoPeer]
    · norm_num +decide [fetch_market_context, fetchBody, computeSnapshot, acquire1y, computeRest,
    cache_get, cache_set, stEmpty, envBase, tkAAA, str2py, normalize_ticker,
    pyStrip, pyUpper, pyReplaceDot, upChar, repChar, isSpaceN, List.rdropWhile,
    get_ticker_info, DEFAULT_USE_YF_INFO, safe_float_opt, clean_profile_str,
    emptyInfo, per1y, per1mo, per5d, coerce_ohlcv_df, emptyFrame, frameOk,
    sortBars, insertBar, flIsNa, frameCloses, dropnaCp, winsorize_series,
    flQuantile, flSorted, flInsert, flLeB, flLtB, tailN, flClip, pct_change,
    dropnaFl, flDiv, flSub, flAdd, flNeg, flMul, main_result, day_move_of,
    zscore_of, week52, pct_vs, near_flag, regime_of, rel_str, rel_str_peers,
    volume_block, safe_float, flTruthy, flLast, flLast2, flMaxList, flMinList,
    flMeanList, flSum, calculate_rsi, flDiffs, frameVolumes,
    fetch_sp500_performance, fetch_sector_performance, fetch_etf_daily_move,
    avTailMove, bench_cache_get, bench_cache_set, strSPY,
    industry_benchmark_etf, optStrTruthy, sector_etfs, anyInfix, listInfixOf,
    isPre, peer_benchmark_for_ticker, peer_scan, peer_moves, sortDesc,
    insertDesc, pyOrQ, pyLower, wordCount, BAD_PROFILE_VALUES,
    degraded_no_frame, degraded_no_series, degraded_no_rets, empty_result,
    strYf, strAv, strLow, strHigh, strNormal, CACHE_TTL, BENCH_TTL, INFO_TTL,
    fetch_market_context_light, envPeers, stPeers, tkT, tkP, infoTech, infoPeer]
  · norm_num +decide [fetch_market_context, fetchBody, computeSnapshot, acquire1y, computeRest,
    cache_get, cache_set, stEmpty, envBase, tkAAA, str2py, normalize_ticker,
    pyStrip, pyUpper, pyReplaceDot, upChar, repChar, isSpaceN, List.rdropWhile,
    get_ticker_info, DEFAULT_USE_YF_INFO, safe_float_opt, clean_profile_str,
    emptyInfo, per1y, per1mo, per5d, coerce_ohlcv_df, emptyFrame, frameOk,
    sortBars, insertBar, flIsNa, frameCloses, dropnaCp, winsorize_series,
    flQuantile, flSorted, flInsert, flLeB, flLtB, tailN, flClip, pct_change,
    dropnaFl, flDiv, flSub, flAdd, flNeg, flMul, main_result, day_move_of,
    zscore_of, week52, pct_vs, near_flag, regime_of, rel_str, rel_str_peers,
    volume_block, safe_float, flTruthy, flLast, flLast2, flMaxList, flMinList,
    flMeanList, flSum, calculate_rsi, flDiffs, frameVolumes,
    fetch_sp500_performance, fetch_sector_performance, fetch_etf_daily_move,
    avTailMove, bench_cache_get, bench_cache_set, strSPY,
    industry_benchmark_etf, optStrTruthy, sector_etfs, anyInfix, listInfixOf,
    isPre, peer_benchmark_for_ticker, peer_scan, peer_moves, sortDesc,
    insertDesc, pyOrQ, pyLower, wordCount, BAD_PROFILE_VALUES,
    degraded_no_frame, degraded_no_series, degraded_no_rets, empty_result,
    strYf, strAv, strLow, strHigh, strNormal, CACHE_TTL, BENCH_TTL, INFO_TTL,
    fetch_market_context_light, envPeers, stPeers, tkT, tkP, infoTech, infoPeer]

/-! ### C3: rate-limit short-circuit in the download cascade -/

/-- C3: if the first primary call raises an error classified as
rate-limited, the whole window-widening retry loop aborts at once: exactly
one call was issued to the primary provider and the empty frame is returned;
consequently a caller such as `_fetch_sector_performance` registers exactly
one primary call for the request and falls through to the Alpha Vantage
branch. -/
theorem rate_limited_first_call_stops_primary (env : Env) (st : St) (now : ℚ)
    (s etf m : PyStr)
    (hs : s.isEmpty = false)
    (hetf : sector_etfs s = some etf)
    (hb : st.bcache etf = none)
    (h0 : env.dlseq etf 0 (per1mo, int1d) = DlOut.err m)
    (hrl : is_rate_limited m = true) :
    download_with_fallbacks (env.dlseq etf) = (emptyFrame, 1) ∧
    fetch_sector_performance env st now (some s) =
      avTailMove env { st with yfCalls := st.yfCalls + 1 } now etf := by
  have hdl : download_with_fallbacks (env.dlseq etf) = (emptyFrame, 1) := by
    unfold download_with_fallbacks dlAttempts dlWindows dlInner dlOnce
    simp [h0, hrl]
  refine ⟨hdl, ?_⟩
  have hget : bench_cache_get st.bcache now etf = (none, st.bcache) := by
    unfold bench_cache_get
    rw [hb]
  unfold fetch_sector_performance
  simp [optStrTruthy, hs, hetf, hget, hdl, coerce_ohlcv_df, emptyFrame, frameOk]

/-- Environment whose first cascade call is a 429 throttle error. -/
def envRL : Env :=
  { envBase with
      dlseq := fun _ k _ =>
        if k = 0 then DlOut.err (str2py "HTTP 429 Too Many Requests")
        else DlOut.err [] }

/-- Witness for the rate-limit short-circuit at a concrete request. -/
theorem rate_limited_first_call_stops_primary_witness :
    is_rate_limited (str2py "HTTP 429 Too Many Requests") = true ∧
    download_with_fallbacks (envRL.dlseq (str2py "XLK")) = (emptyFrame, 1) :=
  ⟨by decide,
   (rate_limited_first_call_stops_primary envRL stEmpty 0 (str2py "Technology")
      (str2py "XLK") (str2py "HTTP 429 Too Many Requests") (by decide) (by decide)
      rfl rfl (by decide)).1⟩

/-! ### C10: a cached None benchmark is a miss -/

lemma bench_get_set_none (m : PyStr → Option (ℚ × Option ℚ)) (now t : ℚ)
    (k : PyStr) (httl : ¬ t - now > BENCH_TTL) :
    bench_cache_get (bench_cache_set m now k none) t k
      = (none, bench_cache_set m now k none) := by
  unfold bench_cache_get bench_cache_set
  simp [httl]

lemma bench_get_set_some (m : PyStr → Option (ℚ × Option ℚ)) (now t : ℚ)
    (k : PyStr) (v : ℚ) (httl : ¬ t - now > BENCH_TTL) :
    bench_cache_get (bench_cache_set m now k (some v)) t k
      = (some v, bench_cache_set m now k (some v)) := by
  unfold bench_cache_get bench_cache_set
  simp [httl]

lemma avTailMove_yfCalls (env : Env) (st : St) (now : ℚ) (k : PyStr) :
    (avTailMove env st now k).2.yfCalls = st.yfCalls := by
  unfold avTailMove
  dsimp only
  repeat' split
  all_goals rfl

/-- C10: a benchmark value stored as None is indistinguishable from a miss:
after `_bench_cache_set(key, None)`, a within-TTL `_bench_cache_get(key)`
returns None, and `_fetch_etf_daily_move` re-invokes the primary provider
(exactly one new primary call) instead of short-circuiting; a stored
non-null value is returned exactly as stored, with no provider call and no
state change. -/
theorem bench_cache_none_indistinguishable_from_miss (env : Env) (st : St)
    (m : PyStr → Option (ℚ × Option ℚ)) (now t : ℚ) (k : PyStr) (v : ℚ)
    (httl : ¬ t - now > BENCH_TTL)
    (hk : k.isEmpty = false) (hnorm : normalize_ticker k = k) :
    (bench_cache_get (bench_cache_set m now k none) t k).1 = none ∧
    (bench_cache_get (bench_cache_set m now k (some v)) t k).1 = some v ∧
    ((fetch_etf_daily_move env
        { st with bcache := bench_cache_set st.bcache now k none } t
        (some k)).2.yfCalls = st.yfCalls + 1) ∧
    (fetch_etf_daily_move env
        { st with bcache := bench_cache_set st.bcache now k (some v) } t
        (some k)
      = (some v, { st with bcache := bench_cache_set st.bcache now k (some v) })) := by
  refine ⟨by rw [bench_get_set_none m now t k httl], by rw [bench_get_set_some m now t k v httl], ?_, ?_⟩
  · unfold fetch_etf_daily_move
    simp only [Option.getD_some, optStrTruthy, hk, hnorm, Bool.not_false,
      Bool.not_true, Bool.true_eq_false, if_false, if_true,
      bench_get_set_none _ now t k httl]
    repeat' split
    all_goals first
      | rfl
      | (apply avTailMove_yfCalls)
      | (exact absurd (by assumption : false = true) (by decide))
  · unfold fetch_etf_daily_move
    simp [Option.getD_some, optStrTruthy, hk, hnorm,
      bench_get_set_some _ now t k v httl]

/-- Witness for the benchmark-cache claim at a concrete key and time. -/
theorem bench_cache_none_indistinguishable_from_miss_witness :
    (¬ (10 : ℚ) - 0 > BENCH_TTL) ∧
    (bench_cache_get (bench_cache_set (fun _ => none) 0 strSPY none) 10 strSPY).1
      = none :=
  ⟨by norm_num [BENCH_TTL],
   (bench_cache_none_indistinguishable_from_miss envBase stEmpty (fun _ => none)
      0 10 strSPY 2 (by norm_num [BENCH_TTL]) (by decide) (by decide)).1⟩

/-! ### C2: degradation when both providers are empty -/

/-- C2: when the 1-year download is unusable (exception or empty frame), the
Alpha Vantage OHLC fallback is empty and the close-only series is empty too,
`fetch_market_context` does not raise — the embedding is total by
construction, every `try` being folded into its handler — and returns the
degraded snapshot with an empty price series, a null day move (and null
volatility and current price), and data_source = none. -/
theorem fetch_market_context_degrades_on_empty_providers (env : Env) (now : ℚ)
    (fuel : ℕ) (st : St) (t0 : PyStr)
    (ht0 : t0.isEmpty = false)
    (hmc : st.mcache (normalize_ticker t0) = none)
    (hyf : frameOk (match env.yf (normalize_ticker t0) per1y with
                    | DlOut.ok f => coerce_ohlcv_df f
                    | DlOut.err _ => emptyFrame) = false)
    (havo : env.avOhlc (normalize_ticker t0) = [])
    (hav1 : env.av1mo (normalize_ticker t0) = []) :
    (fetch_market_context env now fuel st (some t0)).1.price_series = [] ∧
    (fetch_market_context env now fuel st (some t0)).1.day_move_pct = none ∧
    (fetch_market_context env now fuel st (some t0)).1.data_source = none ∧
    (fetch_market_context env now fuel st (some t0)).1.vol_20d = none ∧
    (fetch_market_context env now fuel st (some t0)).1.current_price = none := by
  have hget : cache_get st.mcache now (normalize_ticker t0)
      = (none, st.mcache) := by
    unfold cache_get
    rw [hmc]
  have hbody : ∀ peerFn, ∃ mc sec ind b p,
      (fetchBody env now peerFn st (some t0)).1
        = degraded_no_frame mc sec ind b p [] := by
    intro peerFn
    unfold fetchBody
    simp only [ht0, Bool.false_eq_true, if_false, hget]
    unfold computeSnapshot acquire1y
    simp only [hyf, Bool.false_eq_true, if_false]
    unfold computeRest
    simp only [havo, hav1, df_from_alpha_vantage_ohlc, coerce_ohlcv_df,
      emptyFrame, frameOk, List.isEmpty_nil, Bool.false_eq_true, if_false,
      if_true, Bool.not_true, Bool.not_false]
    exact ⟨_, _, _, _, _, rfl⟩
  have hfields : ∀ mc sec ind b p,
      (degraded_no_frame mc sec ind b p []).price_series = [] ∧
      (degraded_no_frame mc sec ind b p []).day_move_pct = none ∧
      (degraded_no_frame mc sec ind b p []).data_source = none ∧
      (degraded_no_frame mc sec ind b p []).vol_20d = none ∧
      (degraded_no_frame mc sec ind b p []).current_price = none := by
    intro mc sec ind b p
    refine ⟨rfl, rfl, rfl, rfl, rfl⟩
  cases fuel with
  | zero =>
      obtain ⟨mc, sec, ind, b, p, h⟩ := hbody (fun st1 _ => ((none, none, none), st1))
      rw [show fetch_market_context env now 0 st (some t0)
            = fetchBody env now (fun st1 _ => ((none, none, none), st1)) st (some t0)
          from rfl, h]
      exact hfields mc sec ind b p
  | succ n =>
      obtain ⟨mc, sec, ind, b, p, h⟩ := hbody
        (fun st1 args =>
          peer_benchmark_for_ticker
            (fun st2 q => fetch_market_context env now n st2 (some q))
            env now st1 args)
      rw [show fetch_market_context env now (n + 1) st (some t0)
            = fetchBody env now
                (fun st1 args =>
                  peer_benchmark_for_ticker
                    (fun st2 q => fetch_market_context env now n st2 (some q))
                    env now st1 args) st (some t0)
          from rfl, h]
      exact hfields mc sec ind b p

/-- Witness for the degradation claim: an unknown ticker ZZZZ in the
nothing-works environment. -/
theorem fetch_market_context_degrades_on_empty_providers_witness :
    ((str2py "ZZZZ").isEmpty = false) ∧
    (fetch_market_context envBase 0 1 stEmpty (some (str2py "ZZZZ"))).1.price_series
      = [] :=
  ⟨by decide,
   (fetch_market_context_degrades_on_empty_providers envBase 0 1 stEmpty
      (str2py "ZZZZ") (by decide) rfl (by decide) rfl rfl).1⟩

/-! ### C7: TTL discipline of the full-snapshot cache -/

lemma avTailMove_core (env : Env) (st : St) (now : ℚ) (k : PyStr) :
    (avTailMove env st now k).2.mcache = st.mcache ∧
    (avTailMove env st now k).2.icache = st.icache ∧
    (avTailMove env st now k).2.runs = st.runs := by
  unfold avTailMove
  dsimp only
  repeat' split
  all_goals exact ⟨rfl, rfl, rfl⟩

lemma fetch_sp500_performance_core (env : Env) (st : St) (now : ℚ) :
    (fetch_sp500_performance env st now).2.mcache = st.mcache ∧
    (fetch_sp500_performance env st now).2.icache = st.icache ∧
    (fetch_sp500_performance env st now).2.runs = st.runs := by
  unfold fetch_sp500_performance
  dsimp only
  repeat' split
  all_goals first
    | exact ⟨rfl, rfl, rfl⟩
    | (apply avTailMove_core)

lemma fetch_sector_performance_core (env : Env) (st : St) (now : ℚ)
    (sector : Option PyStr) :
    (fetch_sector_performance env st now sector).2.mcache = st.mcache ∧
    (fetch_sector_performance env st now sector).2.icache = st.icache ∧
    (fetch_sector_performance env st now sector).2.runs = st.runs := by
  unfold fetch_sector_performance
  dsimp only
  repeat' split
  all_goals first
    | exact ⟨rfl, rfl, rfl⟩
    | (apply avTailMove_core)

lemma fetch_etf_daily_move_core (env : Env) (st : St) (now : ℚ)
    (etf0 : Option PyStr) :
    (fetch_etf_daily_move env st now etf0).2.mcache = st.mcache ∧
    (fetch_etf_daily_move env st now etf0).2.icache = st.icache ∧
    (fetch_etf_daily_move env st now etf0).2.runs = st.runs := by
  unfold fetch_etf_daily_move
  dsimp only
  repeat' split
  all_goals first
    | exact ⟨rfl, rfl, rfl⟩
    | (apply avTailMove_core)

lemma get_ticker_info_empty (env : Env) (st : St) (now : ℚ) (t : PyStr)
    (h : st.icache t = none) :
    get_ticker_info env st now DEFAULT_USE_YF_INFO t = (emptyInfo, st) := by
  unfold get_ticker_info DEFAULT_USE_YF_INFO
  rw [h]
  simp

lemma peer_scan_empty_icache (env : Env) (now : ℚ) (primary tSec tInd : PyStr)
    (l : List PyStr) (st : St) (hic : ∀ k, st.icache k = none) :
    peer_scan env now primary tSec tInd l st = ([], st) := by
  induction l with
  | nil => rfl
  | cons t rest ih =>
      unfold peer_scan
      split
      · exact ih
      · rw [get_ticker_info_empty env st now (normalize_ticker t)
              (hic (normalize_ticker t))]
        dsimp only
        rw [ih]
        simp [emptyInfo, pyStrip, pyLower]

/-- With an empty info cache (network profile calls are disabled), no peer
candidate ever matches, so the peer benchmark aborts before pricing a single
peer and leaves the state untouched. -/
lemma peer_benchmark_empty_icache (fetchF : St → PyStr → MarketResult × St)
    (env : Env) (now : ℚ) (st : St)
    (args : PyStr × Option PyStr × Option PyStr × ℕ)
    (hic : ∀ k, st.icache k = none) :
    peer_benchmark_for_ticker fetchF env now st args = ((none, none, none), st) := by
  unfold peer_benchmark_for_ticker
  dsimp only
  rw [peer_scan_empty_icache env now args.1 _ _ (env.sp500List.take 500) st hic]
  simp

lemma acquire1y_core (env : Env) (st : St) (tn : PyStr) :
    (acquire1y env st tn).2.2.mcache = st.mcache ∧
    (acquire1y env st tn).2.2.icache = st.icache ∧
    (acquire1y env st tn).2.2.runs = st.runs := by
  unfold acquire1y
  dsimp only
  repeat' split
  all_goals exact ⟨rfl, rfl, rfl⟩

lemma computeRest_core (env : Env) (now : ℚ)
    (peerFn : St → PyStr × Option PyStr × Option PyStr × ℕ →
      (Option PyStr × Option ℕ × Option ℚ) × St)
    (st4 : St) (tn : PyStr) (mc : Option ℚ) (sector industry : Option PyStr)
    (betav pev : Option ℚ) (df : Frame) (dsrc : Option PyStr)
    (hic : ∀ k, st4.icache k = none)
    (hp : ∀ st1 a, (∀ k, st1.icache k = none) →
      peerFn st1 a = ((none, none, none), st1)) :
    (computeRest env now peerFn st4 tn mc sector industry betav pev df dsrc).2.mcache
      = st4.mcache ∧
    (computeRest env now peerFn st4 tn mc sector industry betav pev df dsrc).2.icache
      = st4.icache ∧
    (computeRest env now peerFn st4 tn mc sector industry betav pev df dsrc).2.runs
      = st4.runs := by
  unfold computeRest
  dsimp only
  split
  · exact ⟨rfl, rfl, rfl⟩
  · split
    · exact ⟨rfl, rfl, rfl⟩
    · split
      · exact ⟨rfl, rfl, rfl⟩
      · obtain ⟨m1, i1, r1⟩ := fetch_sp500_performance_core env st4 now
        obtain ⟨m2, i2, r2⟩ := fetch_sector_performance_core env
          (fetch_sp500_performance env st4 now).2 now sector
        obtain ⟨m3, i3, r3⟩ := fetch_etf_daily_move_core env
          (fetch_sector_performance env (fetch_sp500_performance env st4 now).2
            now sector).2 now (industry_benchmark_etf industry sector).2
        have hic3 : ∀ k,
            (fetch_etf_daily_move env
              (fetch_sector_performance env (fetch_sp500_performance env st4 now).2
                now sector).2 now (industry_benchmark_etf industry sector).2).2.icache k
              = none := by
          intro k
          rw [i3, i2, i1]
          exact hic k
        rw [hp _ _ hic3]
        exact ⟨by rw [m3, m2, m1], by rw [i3, i2, i1], by rw [r3, r2, r1]⟩

lemma computeSnapshot_core (env : Env) (now : ℚ)
    (peerFn : St → PyStr × Option PyStr × Option PyStr × ℕ →
      (Option PyStr × Option ℕ × Option ℚ) × St)
    (st : St) (tn : PyStr)
    (hic : ∀ k, st.icache k = none)
    (hp : ∀ st1 a, (∀ k, st1.icache k = none) →
      peerFn st1 a = ((none, none, none), st1)) :
    (computeSnapshot env now peerFn st tn).2.mcache = st.mcache ∧
    (computeSnapshot env now peerFn st tn).2.icache = st.icache ∧
    (computeSnapshot env now peerFn st tn).2.runs = st.runs := by
  unfold computeSnapshot
  dsimp only
  rw [get_ticker_info_empty env st now tn (hic tn)]
  dsimp only
  obtain ⟨am, ai, ar⟩ := acquire1y_core env st tn
  have hic4 : ∀ k, (acquire1y env st tn).2.2.icache k = none := by
    intro k
    rw [ai]
    exact hic k
  refine ⟨?_, ?_, ?_⟩
  · exact (computeRest_core env now peerFn _ tn _ _ _ _ _ _ _ hic4 hp).1.trans am
  · exact (computeRest_core env now peerFn _ tn _ _ _ _ _ _ _ hic4 hp).2.1.trans ai
  · exact (computeRest_core env now peerFn _ tn _ _ _ _ _ _ _ hic4 hp).2.2.trans ar

lemma fetchBody_cache_ttl (env : Env) (now ts : ℚ)
    (peerFn : St → PyStr × Option PyStr × Option PyStr × ℕ →
      (Option PyStr × Option ℕ × Option ℚ) × St)
    (st : St) (t0 : PyStr) (v : MarketResult)
    (hic : ∀ k, st.icache k = none)
    (ht0 : t0.isEmpty = false)
    (hhit : st.mcache (normalize_ticker t0) = some (ts, v))
    (hp : ∀ st1 a, (∀ k, st1.icache k = none) →
      peerFn st1 a = ((none, none, none), st1)) :
    (¬ now - ts > CACHE_TTL →
      fetchBody env now peerFn st (some t0) = (v, st)) ∧
    (now - ts > CACHE_TTL →
      (fetchBody env now peerFn st (some t0)).2.runs
          = st.runs ++ [normalize_ticker t0] ∧
      (fetchBody env now peerFn st (some t0)).2.mcache (normalize_ticker t0)
          = some (now, (fetchBody env now peerFn st (some t0)).1)) := by
  constructor
  · intro h
    unfold fetchBody
    simp only [ht0, Bool.false_eq_true, if_false]
    unfold cache_get
    rw [hhit]
    dsimp only
    rw [if_neg h]
  · intro h
    unfold fetchBody
    simp only [ht0, Bool.false_eq_true, if_false]
    unfold cache_get
    rw [hhit]
    dsimp only
    rw [if_pos h]
    dsimp only
    have hic1 : ∀ k,
        (St.mk (fun k => if k = normalize_ticker t0 then none
            else st.mcache k) st.bcache st.icache st.yfCalls st.avCalls
          (st.runs ++ [normalize_ticker t0])).icache k = none := fun k => hic k
    constructor
    · exact (computeSnapshot_core env now peerFn _ (normalize_ticker t0) hic1 hp).2.2
    · unfold cache_set
      simp

/-- C7: TTL discipline of the full-snapshot cache, for any state whose info
cache is empty (the only kind reachable, since profile calls are disabled
and nothing else writes that cache): a read within the TTL returns exactly
the stored snapshot with the entire module state unchanged — so no provider
is invoked — and a read after TTL expiry lazily discards the stale entry,
runs the snapshot body exactly once (one new entry in the recomputation
log), and overwrites the entry with the fresh result. -/
theorem snapshot_cache_ttl_discipline (env : Env) (now ts : ℚ) (fuel : ℕ)
    (st : St) (t0 : PyStr) (v : MarketResult)
    (hic : ∀ k, st.icache k = none)
    (ht0 : t0.isEmpty = false)
    (hhit : st.mcache (normalize_ticker t0) = some (ts, v)) :
    (¬ now - ts > CACHE_TTL →
      fetch_market_context env now fuel st (some t0) = (v, st)) ∧
    (now - ts > CACHE_TTL →
      (fetch_market_context env now fuel st (some t0)).2.runs
          = st.runs ++ [normalize_ticker t0] ∧
      (fetch_market_context env now fuel st (some t0)).2.mcache (normalize_ticker t0)
          = some (now, (fetch_market_context env now fuel st (some t0)).1)) := by
  cases fuel with
  | zero =>
      exact fetchBody_cache_ttl env now ts _ st t0 v hic ht0 hhit
        (fun st1 a _ => rfl)
  | succ n =>
      exact fetchBody_cache_ttl env now ts _ st t0 v hic ht0 hhit
        (fun st1 a h => peer_benchmark_empty_icache _ env now st1 a h)

/-- The stored snapshot of the cache-hit witness. -/
def stHit : St :=
  { stEmpty with mcache := fun k => if k = tkAAA then some (0, empty_result) else none }

/-- Witness for the cache-TTL claim: a fresh hit returns the stored value
and leaves the state untouched. -/
theorem snapshot_cache_ttl_discipline_witness :
    (¬ (10 : ℚ) - 0 > CACHE_TTL) ∧
    fetch_market_context envBase 10 1 stHit (some tkAAA) = (empty_result, stHit) :=
  ⟨by norm_num [CACHE_TTL],
   (snapshot_cache_ttl_discipline envBase 10 0 1 stHit tkAAA empty_result
      (fun _ => rfl) (by decide) (by decide)).1 (by norm_num [CACHE_TTL])⟩

/-! ### C8: special float values in price_series -/

lemma ne_nan_of_isNa_false (x : Fl) (h : flIsNa x = false) : x ≠ Fl.nan := by
  cases x <;> simp_all [flIsNa]

lemma close_ne_nan_of_mem_dropnaCp (l : List ClosePt) (p : ClosePt)
    (h : p ∈ dropnaCp l) : p.close ≠ Fl.nan := by
  unfold dropnaCp at h
  have h2 := (List.mem_filter.mp h).2
  exact ne_nan_of_isNa_false _ (by simpa using h2)

lemma close_ne_nan_of_mem_winsorize (l : List ClosePt) (p : ClosePt)
    (h : p ∈ winsorize_series l) : p.close ≠ Fl.nan := by
  unfold winsorize_series at h
  dsimp only at h
  split at h
  · exact close_ne_nan_of_mem_dropnaCp l p h
  · split at h
    · exact close_ne_nan_of_mem_dropnaCp l p h
    · rename_i hguard
      obtain ⟨q, hq, rfl⟩ := List.mem_map.mp h
      simp only [Bool.not_eq_true, Bool.or_eq_false_iff] at hguard
      dsimp only
      unfold flClip
      split
      · exact ne_nan_of_isNa_false _ hguard.1.1.1.1
      · split
        · exact ne_nan_of_isNa_false _ hguard.1.1.1.2
        · exact close_ne_nan_of_mem_dropnaCp l q hq

lemma mem_of_mem_tailN {α : Type} (n : ℕ) (l : List α) (p : α)
    (h : p ∈ tailN n l) : p ∈ l :=
  List.mem_of_mem_drop h

lemma safe_float_eq_some (x : Fl) (q : ℚ) (h : safe_float x = some q) :
    x = Fl.fin q := by
  cases x with
  | fin a =>
      simp only [safe_float, Option.some.injEq] at h
      rw [h]
  | nan => simp [safe_float] at h
  | inf => simp [safe_float] at h
  | ninf => simp [safe_float] at h

/-- C8 (amended): the NaN/±Infinity-to-null invariant holds exactly where
`_safe_float` is on the path: `_safe_float` itself maps every non-finite
float to null and every finite one to itself; a price series assembled from
an OHLCV frame never contains a NaN close (NaN rows are dropped); on
OHLCV-sourced snapshots (`data_source = "yfinance"`) `current_price` is
finite or null; and the light path never populates `current_price` at all.
The invariant fails at the two spots that bypass `_safe_float`: close
values inside `price_series` (±Infinity passes through, and the close-only
fallback can surface NaN too), and the raw fallback close that the no-frame
degraded branch stores as `current_price` — see the counterexample. -/
theorem sanitization_scope_of_snapshots (env : Env) (now : ℚ)
    (fuel : ℕ) (st : St) (ot : Option PyStr)
    (hmc : ∀ k, st.mcache k = none) :
    (∀ x q, safe_float x = some q → x = Fl.fin q) ∧
    (∀ q, safe_float (Fl.fin q) = some q) ∧
    (safe_float Fl.nan = none ∧ safe_float Fl.inf = none ∧
      safe_float Fl.ninf = none) ∧
    (∀ p ∈ (fetch_market_context_light env st now ot).1.price_series,
      (fetch_market_context_light env st now ot).1.data_source = some strYf →
      p.close ≠ Fl.nan) ∧
    ((fetch_market_context_light env st now ot).1.current_price = none) ∧
    (∀ p ∈ (fetch_market_context env now fuel st ot).1.price_series,
      (fetch_market_context env now fuel st ot).1.data_source = some strYf →
      p.close ≠ Fl.nan) ∧
    (∀ c, (fetch_market_context env now fuel st ot).1.current_price = some c →
      (fetch_market_context env now fuel st ot).1.data_source = some strYf →
      ∃ q, c = Fl.fin q) := by
  have hlightP : ∀ p ∈ (fetch_market_context_light env st now ot).1.price_series,
      (fetch_market_context_light env st now ot).1.data_source = some strYf →
      p.close ≠ Fl.nan := by
    unfold fetch_market_context_light
    match ot with
    | none =>
        intro p hp _
        simp [empty_result] at hp
    | some t0 =>
        dsimp only
        split
        · intro p hp _
          simp [empty_result] at hp
        · split
          · intro p hp hds
            dsimp only at hp hds
            by_cases hsa : (env.av1mo (normalize_ticker t0)).isEmpty
            · rw [List.isEmpty_iff.mp hsa] at hp
              simp at hp
            · simp only [hsa, Bool.false_eq_true, if_false] at hds
              exact absurd (Option.some.inj hds) (by decide)
          · intro p hp _
            dsimp only at hp
            exact close_ne_nan_of_mem_dropnaCp _ _ (mem_of_mem_tailN _ _ _ hp)
  have hlightC : (fetch_market_context_light env st now ot).1.current_price
      = none := by
    unfold fetch_market_context_light
    match ot with
    | none => rfl
    | some t0 =>
        dsimp only
        split
        · rfl
        · split
          · rfl
          · rfl
  have hfull : (∀ p ∈ (fetch_market_context env now fuel st ot).1.price_series,
      (fetch_market_context env now fuel st ot).1.data_source = some strYf →
      p.close ≠ Fl.nan) ∧
      (∀ c, (fetch_market_context env now fuel st ot).1.current_price = some c →
        (fetch_market_context env now fuel st ot).1.data_source = some strYf →
        ∃ q, c = Fl.fin q) := by
    apply fetch_market_context_cases
      (fun r => (∀ p ∈ r.price_series, r.data_source = some strYf →
          p.close ≠ Fl.nan) ∧
        (∀ c, r.current_price = some c → r.data_source = some strYf →
          ∃ q, c = Fl.fin q))
      env now fuel st ot hmc
    · constructor
      · intro p hp _
        simp [empty_result] at hp
      · intro c hc _
        simp [empty_result] at hc
    · intro mc sec ind b pe sa
      constructor
      · intro p hp hds
        simp only [degraded_no_frame] at hp hds
        by_cases hsa : sa.isEmpty
        · rw [List.isEmpty_iff.mp hsa] at hp
          simp at hp
        · simp only [hsa, Bool.false_eq_true, if_false] at hds
          exact absurd (Option.some.inj hds) (by decide)
      · intro c hc hds
        simp only [degraded_no_frame] at hc hds
        by_cases hsa : sa.isEmpty
        · rw [List.isEmpty_iff.mp hsa] at hds
          simp at hds
        · simp only [hsa, Bool.false_eq_true, if_false] at hds
          exact absurd (Option.some.inj hds) (by decide)
    · intro mc sec ind b pe sa ds
      constructor
      · intro p hp hds
        simp only [degraded_no_series] at hp hds
        by_cases hsa : sa.isEmpty
        · rw [List.isEmpty_iff.mp hsa] at hp
          simp at hp
        · simp only [hsa, Bool.false_eq_true, if_false] at hds
          exact absurd (Option.some.inj hds) (by decide)
      · intro c hc _
        simp [degraded_no_series] at hc
    · intro mc sec ind b pe ds df
      constructor
      · intro p hp _
        simp only [degraded_no_rets] at hp
        exact close_ne_nan_of_mem_winsorize _ _ (mem_of_mem_tailN _ _ _ hp)
      · intro c hc _
        simp [degraded_no_rets] at hc
    · intro df rets ds mc sec ind b pe v sp se il ip pl pn pa
      constructor
      · intro p hp _
        simp only [main_result] at hp
        exact close_ne_nan_of_mem_winsorize _ _ (mem_of_mem_tailN _ _ _ hp)
      · intro c hc _
        simp only [main_result] at hc
        rw [Option.map_eq_some'] at hc
        obtain ⟨q, _, hq⟩ := hc
        exact ⟨q, hq.symm⟩
  exact ⟨safe_float_eq_some, fun _ => rfl, ⟨rfl, rfl, rfl⟩, hlightP, hlightC,
    hfull.1, hfull.2⟩


/-- Environment whose one-month close-only window for AAA carries an
infinite close after a finite one. -/
def envInfClose : Env :=
  { envBase with
      yf := fun t p =>
        if t = tkAAA ∧ p = per1mo then
          DlOut.ok { rows := [⟨1, Fl.fin 1, none⟩, ⟨2, Fl.inf, none⟩],
                     hasVol := false }
        else DlOut.err [] }

/-- Environment where every OHLCV download fails and the Alpha Vantage
close-only fallback for AAA is a single infinite close. -/
def envInfAv : Env :=
  { envBase with
      av1mo := fun t => if t = tkAAA then [⟨1, Fl.inf⟩] else [] }

set_option maxRecDepth 8000 in
set_option maxHeartbeats 2000000 in
/-- C8 (counterexample): two non-finite values leave the engine un-nulled.
On the light path an infinite close passes `dropna` untouched and is
surfaced verbatim inside `price_series` (while the scalar day move over it
is duly sanitized to null); on the full path, when every OHLCV frame fails
and the close-only fallback ends in an infinite close, the no-frame
degraded branch stores that raw close as `current_price` (market.py:658)
and in `price_series`, with no `_safe_float` in between. -/
theorem nonfinite_values_escape_engine :
    (fetch_market_context_light envInfClose stEmpty 0 (some tkAAA)).1.price_series
      = [⟨1, Fl.fin 1⟩, ⟨2, Fl.inf⟩] ∧
    (fetch_market_context_light envInfClose stEmpty 0 (some tkAAA)).1.day_move_pct
      = none ∧
    (fetch_market_context_light envInfClose stEmpty 0 (some tkAAA)).1.data_source
      = some strYf ∧
    (fetch_market_context envInfAv 0 1 stEmpty (some tkAAA)).1.current_price
      = some Fl.inf ∧
    (fetch_market_context envInfAv 0 1 stEmpty (some tkAAA)).1.price_series
      = [⟨1, Fl.inf⟩] := by
  refine ⟨?_, ?_, ?_, ?_, ?_⟩ <;> norm_num +decide [fetch_market_context, fetchBody, computeSnapshot, acquire1y, computeRest,
    cache_get, cache_set, stEmpty, envBase, tkAAA, str2py, normalize_ticker,
    pyStrip, pyUpper, pyReplaceDot, upChar, repChar, isSpaceN, List.rdropWhile,
    get_ticker_info, DEFAULT_USE_YF_INFO, safe_float_opt, clean_profile_str,
    emptyInfo, per1y, per1mo, per5d, coerce_ohlcv_df, emptyFrame, frameOk,
    sortBars, insertBar, flIsNa, frameCloses, dropnaCp, winsorize_series,
    flQuantile, flSorted, flInsert, flLeB, flLtB, tailN, flClip, pct_change,
    dropnaFl, flDiv, flSub, flAdd, flNeg, flMul, main_result, day_move_of,
    zscore_of, week52, pct_vs, near_flag, regime_of, rel_str, rel_str_peers,
    volume_block, safe_float, flTruthy, flLast, flLast2, flMaxList, flMinList,
    flMeanList, flSum, calculate_rsi, flDiffs, frameVolumes,
    fetch_sp500_performance, fetch_sector_performance, fetch_etf_daily_move,
    avTailMove, bench_cache_get, bench_cache_set, strSPY,
    industry_benchmark_etf, optStrTruthy, sector_etfs, anyInfix, listInfixOf,
    isPre, peer_benchmark_for_ticker, peer_scan, peer_moves, sortDesc,
    insertDesc, pyOrQ, pyLower, wordCount, BAD_PROFILE_VALUES,
    degraded_no_frame, degraded_no_series, degraded_no_rets, empty_result,
    strYf, strAv, strLow, strHigh, strNormal, CACHE_TTL, BENCH_TTL, INFO_TTL,
    fetch_market_context_light, envInfClose, envInfAv]

/-- Witness for the amended C8 theorem at a concrete run. -/
theorem sanitization_scope_of_snapshots_witness :
    (∀ k, stEmpty.mcache k = none) ∧
    ((fetch_market_context_light envInfClose stEmpty 0 (some tkAAA)).1.current_price
      = none) :=
  ⟨fun _ => rfl,
   (sanitization_scope_of_snapshots envInfClose 0 1 stEmpty (some tkAAA)
      (fun _ => rfl)).2.2.2.2.1⟩
